import Mathlib

/-!
Verification development for the semantic-analysis core of a VHDL tooling
suite (`semantic.rs` of the `vhdl_parser` crate).

The Rust source is shallowly embedded:
* interned symbols become `String`, source positions become `Nat`;
* Rust references to libraries / packages become their names, resolved
  through the design root on demand;
* the interior-mutable `AnalysisContext` (`RefCell` cache + lock set) is
  threaded explicitly through every analysis function;
* the `LockGuard` drop is an explicit removal of the key on every exit
  path that follows a successful `lock`;
* diagnostic sinks (`&mut MessageHandler`) become returned message lists;
  call sites that pass a disposable `ignore_messages` sink drop the list;
* Rust panics (`assert!`, `expect`, `panic!`, impossible map indexing)
  become the `Res.crashed` result;
* the recursive analysis is given explicit fuel (`Nat`); `Res.outOfFuel`
  marks an execution that did not finish within the given fuel.  Every
  recursive call strictly decreases the fuel, so all definitions are
  structurally terminating; a run of the real program that terminates
  corresponds to some sufficiently large fuel, and a run that recurses
  forever is one whose result is `outOfFuel` for every fuel.

`DeclarativeRegion` lives in `declarative_region.rs`, which is not part of
the sources at hand; its operations are modelled from the specification
(section 4.1 and the data-model invariants), shaped to agree with the
behaviour pinned down by the unit tests inside `semantic.rs`.  Each such
definition carries a `Modelled from the spec:` note.
-/

set_option autoImplicit false

namespace Vhdl

abbrev Symbol := String

abbrev SrcPos := Nat

structure WithPos (α : Type) where
  item : α
  pos : SrcPos
  deriving Repr, DecidableEq

/-- Message severity, from `message.rs` (external interface of the core). -/
inductive Severity where
  | error
  | warning
  | hint
  | log
  deriving Repr, DecidableEq

/-- A diagnostic message with optional related positions
("Previously defined here" cross references). -/
structure Message where
  severity : Severity
  pos : SrcPos
  message : String
  related : List (SrcPos × String)
  deriving Repr, DecidableEq

def Message.error (pos : SrcPos) (message : String) : Message :=
  { severity := .error, pos := pos, message := message, related := [] }

def Message.hint (pos : SrcPos) (message : String) : Message :=
  { severity := .hint, pos := pos, message := message, related := [] }

def Message.add_related (m : Message) (pos : SrcPos) (message : String) : Message :=
  { m with related := m.related ++ [(pos, message)] }

/-- `Designator`: the lookup key for a declaration. -/
inductive Designator where
  | identifier (s : Symbol)
  | operator_symbol (s : Symbol)
  deriving Repr, DecidableEq

def Designator.describe : Designator → String
  | .identifier s => s
  | .operator_symbol s => s

/-- The closed variant of declaration kinds a `VisibleDeclaration` can bind
(`AnyDeclaration` in the source).  Rust references are replaced by the
referenced item's name; AST declarations are summarised by the fields the
region logic inspects (constant or not, initial expression present or not,
protected type declaration / body). -/
inductive AnyDeclaration where
  | library (library_name : Symbol)
  | package (library_name : Symbol) (package_name : Symbol)
  | context (library_name : Symbol) (context_name : Symbol)
  | entity (entity_name : Symbol)
  | configuration (configuration_name : Symbol)
  | package_instance (instance_name : Symbol)
  | decl_object (is_constant : Bool) (has_expression : Bool)
  | decl_protected_type
  | decl_protected_body
  | decl_other
  | enum_literal
  deriving Repr, DecidableEq

/-- `decl_object true false` is a deferred constant. -/
def AnyDeclaration.is_deferred_constant : AnyDeclaration → Bool
  | .decl_object true false => true
  | _ => false

def AnyDeclaration.is_full_constant : AnyDeclaration → Bool
  | .decl_object true true => true
  | _ => false

structure VisibleDeclaration where
  designator : Designator
  decl : AnyDeclaration
  decl_pos : Option SrcPos
  may_overload : Bool
  deriving Repr, DecidableEq

/-- `VisibleDeclaration::new(ident, decl)`: position of the identifier,
not overloadable by default. -/
def VisibleDeclaration.new (ident : WithPos Symbol) (decl : AnyDeclaration) :
    VisibleDeclaration :=
  { designator := .identifier ident.item, decl := decl,
    decl_pos := some ident.pos, may_overload := false }

def VisibleDeclaration.new_designator (d : WithPos Designator) (decl : AnyDeclaration) :
    VisibleDeclaration :=
  { designator := d.item, decl := decl, decl_pos := some d.pos, may_overload := false }

def VisibleDeclaration.with_overload (v : VisibleDeclaration) (value : Bool) :
    VisibleDeclaration :=
  { v with may_overload := value }

/-- Modelled from the spec: an `immediate` map entry is either a single
binding, a set of overloadable bindings, or a protected type declaration
paired with its body (the pairing lets a protected body legally share its
type's designator while duplicate bodies are still reported). -/
inductive RegionEntry where
  | single (v : VisibleDeclaration)
  | overloaded (vs : List VisibleDeclaration)
  | protected_with_body (type_decl : VisibleDeclaration) (body_decl : VisibleDeclaration)
  deriving Repr, DecidableEq

/-- Modelled from the spec: `DeclarativeRegion` (from the missing
`declarative_region.rs`): a scope node with an optional parent, an
`immediate` association list keyed by designator, a `potentially_visible`
set populated by use clauses, and the "in a package declaration" mode
flag. -/
inductive DeclarativeRegion where
  | mk (parent : Option DeclarativeRegion)
       (immediate : List (Designator × RegionEntry))
       (potentially_visible : List VisibleDeclaration)
       (in_package_decl : Bool)
  deriving Repr

def DeclarativeRegion.parent : DeclarativeRegion → Option DeclarativeRegion
  | .mk p _ _ _ => p

def DeclarativeRegion.immediate : DeclarativeRegion → List (Designator × RegionEntry)
  | .mk _ i _ _ => i

def DeclarativeRegion.potentially_visible : DeclarativeRegion → List VisibleDeclaration
  | .mk _ _ p _ => p

def DeclarativeRegion.in_package_decl : DeclarativeRegion → Bool
  | .mk _ _ _ b => b

/-- `DeclarativeRegion::new(parent)`. -/
def DeclarativeRegion.new (parent : Option DeclarativeRegion) : DeclarativeRegion :=
  .mk parent [] [] false

/-- `.in_package_declaration()` builder: sets the mode flag. -/
def DeclarativeRegion.in_package_declaration : DeclarativeRegion → DeclarativeRegion
  | .mk p i v _ => .mk p i v true

def assoc_find {κ α : Type} [DecidableEq κ] : List (κ × α) → κ → Option α
  | [], _ => none
  | (k, v) :: rest, key => if k = key then some v else assoc_find rest key

/-- Replace the entry for `key` if present, otherwise append it. -/
def assoc_store {κ α : Type} [DecidableEq κ] : List (κ × α) → κ → α → List (κ × α)
  | [], key, value => [(key, value)]
  | (k, v) :: rest, key, value =>
      if k = key then (key, value) :: rest else (k, v) :: assoc_store rest key value

def DeclarativeRegion.find_immediate (r : DeclarativeRegion) (d : Designator) :
    Option RegionEntry :=
  assoc_find r.immediate d

def DeclarativeRegion.store_immediate (r : DeclarativeRegion) (d : Designator)
    (e : RegionEntry) : DeclarativeRegion :=
  .mk r.parent (assoc_store r.immediate d e) r.potentially_visible r.in_package_decl

/-- The first declaration of an entry, used as the "previously defined
here" reference position. -/
def RegionEntry.first_decl : RegionEntry → Option VisibleDeclaration
  | .single v => some v
  | .overloaded vs => vs.head?
  | .protected_with_body t _ => some t

def duplicate_error (v : VisibleDeclaration) (previous : Option SrcPos) : Message :=
  let m := Message.error (v.decl_pos.getD 0)
    ("Duplicate declaration of '" ++ v.designator.describe ++ "'")
  match previous with
  | some pos => m.add_related pos "Previously defined here"
  | none => m

/-- Modelled from the spec (section 4.1 `add` and the deferred-constant /
protected-type policies): insert a declaration into the immediate set,
reporting homographs.  Two overloadable declarations coexist; a full
constant completes a deferred constant (legal only outside the package
declaration's own region, i.e. in the body); a protected body completes a
protected type declaration; a deferred constant is legal only directly in
a package declaration region; everything else sharing a designator is a
"Duplicate declaration" error, the first-seen declaration is retained and
the new one dropped. -/
def DeclarativeRegion.add (r : DeclarativeRegion) (v : VisibleDeclaration) :
    DeclarativeRegion × List Message :=
  if v.decl.is_deferred_constant && !r.in_package_decl then
    (r, [Message.error (v.decl_pos.getD 0)
      "Deferred constants are only allowed in package declarations (not body)"])
  else
    match r.find_immediate v.designator with
    | none =>
        if v.decl = .decl_protected_body then
          (r, [Message.error (v.decl_pos.getD 0)
            ("No declaration of protected type '" ++ v.designator.describe ++ "'")])
        else if v.may_overload then
          (r.store_immediate v.designator (.overloaded [v]), [])
        else
          (r.store_immediate v.designator (.single v), [])
    | some (.overloaded vs) =>
        if v.may_overload then
          (r.store_immediate v.designator (.overloaded (vs ++ [v])), [])
        else
          (r, [duplicate_error v ((RegionEntry.overloaded vs).first_decl.bind (·.decl_pos))])
    | some (.single e) =>
        if e.decl.is_deferred_constant && v.decl.is_full_constant then
          if r.in_package_decl then
            (r, [Message.error (v.decl_pos.getD 0)
              "Full declaration of deferred constant is only allowed in a package body"])
          else
            (r.store_immediate v.designator (.single v), [])
        else if e.decl = .decl_protected_type && v.decl = .decl_protected_body then
          (r.store_immediate v.designator (.protected_with_body e v), [])
        else
          (r, [duplicate_error v e.decl_pos])
    | some (.protected_with_body t b) =>
        if v.decl = .decl_protected_body then
          (r, [duplicate_error v b.decl_pos])
        else
          (r, [duplicate_error v t.decl_pos])

/-- Fold `add` over a list of declarations, accumulating messages. -/
def DeclarativeRegion.add_list (r : DeclarativeRegion) :
    List VisibleDeclaration → DeclarativeRegion × List Message
  | [] => (r, [])
  | v :: rest =>
      let (r1, m1) := r.add v
      let (r2, m2) := r1.add_list rest
      (r2, m1 ++ m2)

/-- An interface declaration (generic, port or parameter): only the
identifier matters to the region logic. -/
structure InterfaceDeclaration where
  ident : WithPos Symbol
  deriving Repr, DecidableEq

/-- Modelled from the spec: bulk-add of an interface list with the same
uniqueness rule as `add`. -/
def DeclarativeRegion.add_interface_list (r : DeclarativeRegion)
    (list : List InterfaceDeclaration) : DeclarativeRegion × List Message :=
  r.add_list (list.map (fun i => VisibleDeclaration.new i.ident .decl_other))

/-- `make_library_visible(name, library)`: bind the library in `immediate`
under `name`. -/
def DeclarativeRegion.make_library_visible (r : DeclarativeRegion) (name : Symbol)
    (library_name : Symbol) : DeclarativeRegion :=
  r.store_immediate (.identifier name)
    (.single { designator := .identifier name, decl := .library library_name,
               decl_pos := none, may_overload := false })

def DeclarativeRegion.make_potentially_visible (r : DeclarativeRegion)
    (v : VisibleDeclaration) : DeclarativeRegion :=
  .mk r.parent r.immediate (r.potentially_visible ++ [v]) r.in_package_decl

def RegionEntry.declarations : RegionEntry → List VisibleDeclaration
  | .single v => [v]
  | .overloaded vs => vs
  | .protected_with_body t _ => [t]

/-- `make_all_potentially_visible(other)`: import every immediate binding
of `other` (implements `use X.all`). -/
def DeclarativeRegion.make_all_potentially_visible (r : DeclarativeRegion)
    (other : DeclarativeRegion) : DeclarativeRegion :=
  .mk r.parent r.immediate
    (r.potentially_visible ++ (other.immediate.map Prod.snd).flatMap RegionEntry.declarations)
    r.in_package_decl

def lookup_in_visible (vs : List VisibleDeclaration) (d : Designator) :
    Option VisibleDeclaration :=
  vs.find? (fun v => v.designator = d)

/-- `lookup(designator)`: `immediate` first, then `potentially_visible`,
then the parent chain. -/
def DeclarativeRegion.lookup : DeclarativeRegion → Designator → Option VisibleDeclaration
  | .mk parent immediate potentially_visible _, d =>
      match assoc_find immediate d with
      | some e => e.first_decl
      | none =>
          match lookup_in_visible potentially_visible d with
          | some v => some v
          | none =>
              match parent with
              | some p => p.lookup d
              | none => none

/-- Modelled from the spec: `close_immediate` reports every protected type
declared here that has no body here. -/
def DeclarativeRegion.close_immediate (r : DeclarativeRegion) :
    DeclarativeRegion × List Message :=
  (r, r.immediate.flatMap (fun (d, e) =>
    match e with
    | .single v =>
        if v.decl = .decl_protected_type then
          [Message.error (v.decl_pos.getD 0)
            ("Missing body for protected type '" ++ d.describe ++ "'")]
        else []
    | _ => []))

/-- Modelled from the spec: `close_both` runs `close_immediate` and then
reports every deferred constant still lacking its full declaration. -/
def DeclarativeRegion.close_both (r : DeclarativeRegion) :
    DeclarativeRegion × List Message :=
  let (r1, m1) := r.close_immediate
  (r1, m1 ++ r1.immediate.flatMap (fun (d, e) =>
    match e with
    | .single v =>
        if v.decl.is_deferred_constant then
          [Message.error (v.decl_pos.getD 0)
            ("Deferred constant '" ++ d.describe ++
              "' lacks corresponding full constant declaration in package body")]
        else []
    | _ => []))

/-- Modelled from the spec: `into_extended(root)` keeps the primary unit's
declarations as immediate but reroots the ancestor chain (and the import
scope) to the secondary unit's own `root`; the result is no longer "in a
package declaration". -/
def DeclarativeRegion.into_extended (r : DeclarativeRegion)
    (root : DeclarativeRegion) : DeclarativeRegion :=
  .mk (some root) r.immediate r.potentially_visible false

/-- `clone_parent()`: the rerooted ancestor of a region. -/
def DeclarativeRegion.clone_parent (r : DeclarativeRegion) : Option DeclarativeRegion :=
  r.parent

/-- `into_owned_parent()`: an ownership conversion in Rust; the identity
here, where regions are plain values. -/
def DeclarativeRegion.into_owned_parent (r : DeclarativeRegion) : DeclarativeRegion :=
  r

/-! ## AST and design units

The abstract syntax needed by the analyzer, restricted to the construct
kinds the embedded functions inspect (`ast.rs` is an external input of the
core). -/

/-- `Name`: selected-name syntax tree.  `other` stands for every
non-selected name form (indexed, slice, attribute, ...), which
`lookup_selected_name` answers with `NotSelected`. -/
inductive Name where
  | designator (d : Designator)
  | selected (pfx : WithPos Name) (suffix : WithPos Designator)
  | selected_all (pfx : WithPos Name)
  | other
  deriving Repr

structure UseClause where
  name_list : List (WithPos Name)
  deriving Repr

structure LibraryClause where
  name_list : List (WithPos Symbol)
  deriving Repr

structure ContextReference where
  name_list : List (WithPos Name)
  deriving Repr

inductive ContextItem where
  | library (clause : LibraryClause)
  | use (clause : UseClause)
  | context (clause : ContextReference)
  deriving Repr

/-- Declarations of a declarative part, restricted to the kinds the claims
exercise: object declarations (with constant / initial-expression flags,
deferred constant = constant without expression), use clauses inside a
declarative part, and protected type declarations / bodies. -/
inductive Declaration where
  | object (ident : WithPos Symbol) (is_constant : Bool) (has_expression : Bool)
  | use (clause : WithPos UseClause)
  | protected_type_decl (ident : WithPos Symbol)
  | protected_type_body (ident : WithPos Symbol)
  deriving Repr

structure PackageDeclaration where
  ident : WithPos Symbol
  generic_clause : Option (List InterfaceDeclaration)
  decl : List Declaration
  deriving Repr

/-- `DesignUnit<PackageDeclaration>`: context clause plus the unit. -/
structure PackageDesignUnitDecl where
  context_clause : List (WithPos ContextItem)
  unit : PackageDeclaration
  deriving Repr

structure PackageBodyUnit where
  context_clause : List (WithPos ContextItem)
  decl : List Declaration
  deriving Repr

/-- A package declaration paired with its optional body. -/
structure PackageDesignUnit where
  package : PackageDesignUnitDecl
  body : Option PackageBodyUnit
  deriving Repr

def PackageDesignUnit.name (p : PackageDesignUnit) : Symbol :=
  p.package.unit.ident.item

def PackageDesignUnit.ident (p : PackageDesignUnit) : WithPos Symbol :=
  p.package.unit.ident

structure ContextDeclaration where
  ident : WithPos Symbol
  items : List (WithPos ContextItem)
  deriving Repr

structure PackageInstance where
  ident : WithPos Symbol
  context_clause : List (WithPos ContextItem)
  deriving Repr

mutual
inductive GenerateBody where
  | mk (decl : Option (List Declaration)) (statements : List ConcurrentStatement)
  deriving Repr

/-- Concurrent statements, restricted to the forms
`analyze_concurrent_statement` dispatches on; `other` covers the
statement kinds it ignores. -/
inductive ConcurrentStatement where
  | block (decl : List Declaration) (statements : List ConcurrentStatement)
  | process (decl : List Declaration)
  | for_generate (body : GenerateBody)
  | if_generate (conditionals : List GenerateBody) (else_item : Option GenerateBody)
  | case_generate (alternatives : List GenerateBody)
  | other
  deriving Repr
end

def GenerateBody.decl : GenerateBody → Option (List Declaration)
  | .mk d _ => d

def GenerateBody.statements : GenerateBody → List ConcurrentStatement
  | .mk _ s => s

structure EntityDeclaration where
  ident : WithPos Symbol
  generic_clause : Option (List InterfaceDeclaration)
  port_clause : Option (List InterfaceDeclaration)
  decl : List Declaration
  statements : List ConcurrentStatement
  deriving Repr

structure EntityDesignUnitDecl where
  context_clause : List (WithPos ContextItem)
  unit : EntityDeclaration
  deriving Repr

structure ArchitectureUnit where
  decl : List Declaration
  statements : List ConcurrentStatement
  deriving Repr

structure ArchitectureBody where
  ident : WithPos Symbol
  context_clause : List (WithPos ContextItem)
  unit : ArchitectureUnit
  deriving Repr

structure ConfigurationDeclaration where
  ident : WithPos Symbol
  deriving Repr

structure EntityDesignUnit where
  entity : EntityDesignUnitDecl
  architectures : List ArchitectureBody
  configurations : List ConfigurationDeclaration
  deriving Repr

/-- A library: a name plus its owned design units (`library.rs`, an
external input of the core).  The lists fix the iteration order of the
source's per-kind unit collections. -/
structure Library where
  name : Symbol
  packages : List PackageDesignUnit
  contexts : List ContextDeclaration
  entities : List EntityDesignUnit
  package_instances : List PackageInstance
  deriving Repr

structure DesignRoot where
  libraries : List Library
  deriving Repr

def DesignRoot.get_library (root : DesignRoot) (name : Symbol) : Option Library :=
  root.libraries.find? (fun l => l.name = name)

def Library.find_package (l : Library) (name : Symbol) : Option PackageDesignUnit :=
  l.packages.find? (fun p => p.name = name)

/-! ## Analysis context (memoization cache and reentrancy guard) -/

/-- `AnalysisContext`: the memoization cache
(`primary_unit_data : (library, unit) → PrimaryUnitData`, whose `region`
field is `None` for the circular-dependency sentinel) and the `locked`
reentrancy-guard set.  Both are association/member lists over
`(library name, primary unit name)` keys. -/
structure AnalysisContext where
  primary_unit_data : List ((Symbol × Symbol) × Option DeclarativeRegion)
  locked : List (Symbol × Symbol)

def AnalysisContext.new : AnalysisContext := ⟨[], []⟩

def has_key : List (Symbol × Symbol) → (Symbol × Symbol) → Bool
  | [], _ => false
  | k :: rest, key => if k = key then true else has_key rest key

def remove_key : List (Symbol × Symbol) → (Symbol × Symbol) → List (Symbol × Symbol)
  | [], _ => []
  | k :: rest, key => if k = key then rest else k :: remove_key rest key

/-- `AnalysisContext::lock`: test-and-insert into `locked`; `none` models
the `Err(())` of an already-locked key. -/
def AnalysisContext.lock (ctx : AnalysisContext) (library_name primary_unit_name : Symbol) :
    Option AnalysisContext :=
  if has_key ctx.locked (library_name, primary_unit_name) then none
  else some { ctx with locked := (library_name, primary_unit_name) :: ctx.locked }

/-- `LockGuard::drop`: remove the key from `locked`. -/
def AnalysisContext.drop_lock (ctx : AnalysisContext) (library_name primary_unit_name : Symbol) :
    AnalysisContext :=
  { ctx with locked := remove_key ctx.locked (library_name, primary_unit_name) }

/-- `AnalysisContext::get_region`: a cached `PrimaryUnitData` whose region
is the `None` sentinel yields `none`, exactly like a missing entry
(`.and_then(|primary_data| primary_data.region())`). -/
def AnalysisContext.get_region (ctx : AnalysisContext)
    (library_name primary_unit_name : Symbol) : Option DeclarativeRegion :=
  match assoc_find ctx.primary_unit_data (library_name, primary_unit_name) with
  | some region => region
  | none => none

/-- `AnalysisContext::set_region`: insert-if-vacant; an occupied entry is
left untouched. -/
def AnalysisContext.set_region (ctx : AnalysisContext)
    (library_name primary_unit_name : Symbol) (region : Option DeclarativeRegion) :
    AnalysisContext :=
  match assoc_find ctx.primary_unit_data (library_name, primary_unit_name) with
  | some _ => ctx
  | none =>
      { ctx with primary_unit_data :=
          ((library_name, primary_unit_name), region) :: ctx.primary_unit_data }

/-! ## Result type -/

/-- Outcome of an embedded computation: a value, a Rust panic
(`assert!` / `expect` / `panic!`), or exhaustion of the recursion fuel. -/
inductive Res (α : Type) where
  | ok (val : α)
  | crashed
  | outOfFuel
  deriving Repr

/-! ## The analyzer -/

structure Analyzer where
  work_sym : Symbol
  std_sym : Symbol
  standard_designator : Designator
  root : DesignRoot
  library_regions : List (Symbol × DeclarativeRegion)

/-- Per-library designators of all primary units, in the order
`Analyzer::new` adds them: packages, contexts, entities (each followed by
its configurations), package instances. -/
def Library.primary_unit_declarations (library : Library) : List VisibleDeclaration :=
  (library.packages.map (fun package =>
    { designator := .identifier package.package.unit.ident.item,
      decl := .package library.name package.name,
      decl_pos := some package.package.unit.ident.pos,
      may_overload := false }))
  ++ (library.contexts.map (fun context =>
    { designator := .identifier context.ident.item,
      decl := .context library.name context.ident.item,
      decl_pos := some context.ident.pos,
      may_overload := false }))
  ++ (library.entities.flatMap (fun entity =>
    { designator := Designator.identifier entity.entity.unit.ident.item,
      decl := AnyDeclaration.entity entity.entity.unit.ident.item,
      decl_pos := some entity.entity.unit.ident.pos,
      may_overload := false }
    :: entity.configurations.map (fun configuration =>
      { designator := .identifier configuration.ident.item,
        decl := .configuration configuration.ident.item,
        decl_pos := some configuration.ident.pos,
        may_overload := false })))
  ++ (library.package_instances.map (fun inst =>
    { designator := .identifier inst.ident.item,
      decl := .package_instance inst.ident.item,
      decl_pos := some inst.ident.pos,
      may_overload := false }))

/-- The body of `Analyzer::new` up to the assertion: build one flat region
per library holding all its primary units, collecting homograph messages. -/
def Analyzer.build (root : DesignRoot) : Analyzer × List Message :=
  let step := fun (acc : List (Symbol × DeclarativeRegion) × List Message)
      (library : Library) =>
    let (region, msgs) :=
      (DeclarativeRegion.new none).add_list library.primary_unit_declarations
    (acc.1 ++ [(library.name, region)], acc.2 ++ msgs)
  let (library_regions, messages) := root.libraries.foldl step ([], [])
  ({ work_sym := "work", std_sym := "std",
     standard_designator := .identifier "standard",
     root := root, library_regions := library_regions }, messages)

/-- `Analyzer::new`: builds the per-library regions and asserts that no
messages were produced (`assert!(messages.is_empty())`); a failing
assertion is a panic. -/
def Analyzer.new (root : DesignRoot) : Res Analyzer :=
  let (analyzer, messages) := Analyzer.build root
  if messages.isEmpty then .ok analyzer else .crashed

def Analyzer.region_of_library (a : Analyzer) (name : Symbol) :
    Option DeclarativeRegion :=
  assoc_find a.library_regions name

/-! ## The recursive analysis engine

The mutually recursive functions of `semantic.rs`
(`lookup_selected_name`, `analyze_use_clause`, `analyze_context_clause`,
`analyze_declarative_part` / `analyze_declaration`, `get_package_region`,
`new_root_region`, `analyze_package_declaration`,
`analyze_package_declaration_unit`, and the concurrent-statement walkers)
are embedded as the cases of one task interpreter `run_task` that is
structurally recursive on an explicit fuel, so that closed runs reduce in
the kernel.  Every recursive call strictly decreases the fuel; each task
constructor corresponds to one source function and named wrappers are
provided below. -/

inductive LookupResult where
  | single (v : VisibleDeclaration)
  | all_within (pfx : WithPos Name) (v : VisibleDeclaration)
  | not_selected
  | unfinished

inductive Task where
  | lookup_name (region : DeclarativeRegion) (name : WithPos Name)
  | use_clause_names (region : DeclarativeRegion) (names : List (WithPos Name))
      (use_pos : SrcPos)
  | context_clause (region : DeclarativeRegion) (items : List (WithPos ContextItem))
  | context_ref_names (region : DeclarativeRegion) (names : List (WithPos Name))
      (item_pos : SrcPos)
  | declarative_part (region : DeclarativeRegion) (declarations : List Declaration)
  | declaration (region : DeclarativeRegion) (decl : Declaration)
  | package_region (library : Library) (package : PackageDesignUnit)
  | root_region (work : Library)
  | package_declaration (parent : DeclarativeRegion) (package : PackageDeclaration)
  | package_declaration_unit (root_region : DeclarativeRegion) (library : Library)
      (package : PackageDesignUnit)
  | generate_body (parent : DeclarativeRegion) (body : GenerateBody)
  | concurrent_statement (parent : DeclarativeRegion) (statement : ConcurrentStatement)
  | concurrent_part (parent : DeclarativeRegion) (statements : List ConcurrentStatement)

inductive TaskResult where
  | lookup (r : Except Message LookupResult)
  | region_msgs (region : DeclarativeRegion) (msgs : List Message)
  | opt_region (r : Option DeclarativeRegion)
  | region (r : DeclarativeRegion)
  | opt_region_msgs (r : Option DeclarativeRegion) (msgs : List Message)
  | msgs (msgs : List Message)

def Name.is_selected_form : Name → Bool
  | .selected .. => true
  | .selected_all .. => true
  | _ => false

/-- Library clauses touch no shared state; `analyze_context_clause`'s
`ContextItem::Library` arm is a pure fold over the clause's names. -/
def analyze_library_clause (a : Analyzer) (region : DeclarativeRegion) :
    List (WithPos Symbol) → DeclarativeRegion × List Message
  | [] => (region, [])
  | library_name :: rest =>
      if a.work_sym = library_name.item then
        let (region, msgs) := analyze_library_clause a region rest
        (region, Message.hint library_name.pos
          "Library clause not necessary for current working library" :: msgs)
      else
        match a.root.get_library library_name.item with
        | some library =>
            analyze_library_clause a (region.make_library_visible library.name library.name) rest
        | none =>
            let (region, msgs) := analyze_library_clause a region rest
            (region, Message.error library_name.pos
              ("No such library '" ++ library_name.item ++ "'") :: msgs)

def run_task (a : Analyzer) : Nat → Task → AnalysisContext →
    Res (TaskResult × AnalysisContext)
  | 0, _, _ => .outOfFuel
  | fuel + 1, task, ctx =>
    match task with
    /- `Analyzer::lookup_selected_name` -/
    | .lookup_name region name =>
      match name.item with
      | .selected pfx suffix =>
          match run_task a fuel (.lookup_name region pfx) ctx with
          | .ok (.lookup (.ok (.single visible_decl)), ctx) =>
              match visible_decl.decl with
              | .library library_name =>
                  match a.region_of_library library_name with
                  | some library_region =>
                      match library_region.lookup suffix.item with
                      | some vd => .ok (.lookup (.ok (.single vd)), ctx)
                      | none => .ok (.lookup (.error (Message.error suffix.pos
                          ("No primary unit '" ++ suffix.item.describe ++ "' within '" ++
                            library_name ++ "'"))), ctx)
                  | none => .crashed
              | .package library_name package_name =>
                  match a.root.get_library library_name with
                  | some library =>
                      match library.find_package package_name with
                      | some package =>
                          match run_task a fuel (.package_region library package) ctx with
                          | .ok (.opt_region (some package_region), ctx) =>
                              match package_region.lookup suffix.item with
                              | some vd => .ok (.lookup (.ok (.single vd)), ctx)
                              | none => .ok (.lookup (.error (Message.error suffix.pos
                                  ("No declaration of '" ++ suffix.item.describe ++
                                    "' within package '" ++ package.name ++ "'"))), ctx)
                          | .ok (.opt_region none, ctx) =>
                              .ok (.lookup (.error (Message.error pfx.pos
                                ("Found circular dependencies when using package '" ++
                                  package.name ++ "'"))), ctx)
                          | .ok (_, _) => .crashed
                          | .crashed => .crashed
                          | .outOfFuel => .outOfFuel
                      | none => .crashed
                  | none => .crashed
              | _ => .ok (.lookup (.ok .unfinished), ctx)
          | .ok (.lookup (.ok (.all_within _ _)), ctx) =>
              .ok (.lookup (.error (Message.error pfx.pos
                "'.all' may not be the prefix of a selected name")), ctx)
          | .ok (.lookup (.ok other), ctx) => .ok (.lookup (.ok other), ctx)
          | .ok (.lookup (.error m), ctx) => .ok (.lookup (.error m), ctx)
          | .ok (_, _) => .crashed
          | .crashed => .crashed
          | .outOfFuel => .outOfFuel
      | .selected_all pfx =>
          match run_task a fuel (.lookup_name region pfx) ctx with
          | .ok (.lookup (.ok (.single visible_decl)), ctx) =>
              .ok (.lookup (.ok (.all_within pfx visible_decl)), ctx)
          | .ok (.lookup (.ok (.all_within _ _)), ctx) =>
              .ok (.lookup (.error (Message.error pfx.pos
                "'.all' may not be the prefix of a selected name")), ctx)
          | .ok (.lookup (.ok other), ctx) => .ok (.lookup (.ok other), ctx)
          | .ok (.lookup (.error m), ctx) => .ok (.lookup (.error m), ctx)
          | .ok (_, _) => .crashed
          | .crashed => .crashed
          | .outOfFuel => .outOfFuel
      | .designator d =>
          match region.lookup d with
          | some visible_item => .ok (.lookup (.ok (.single visible_item)), ctx)
          | none => .ok (.lookup (.error (Message.error name.pos
              ("No declaration of '" ++ d.describe ++ "'"))), ctx)
      | .other => .ok (.lookup (.ok .not_selected), ctx)
    /- the loop body of `Analyzer::analyze_use_clause` -/
    | .use_clause_names region names use_pos =>
      match names with
      | [] => .ok (.region_msgs region [], ctx)
      | name :: rest =>
        if name.item.is_selected_form = false then
          match run_task a fuel (.use_clause_names region rest use_pos) ctx with
          | .ok (.region_msgs region msgs, ctx) =>
              .ok (.region_msgs region
                (Message.error use_pos "Use clause must be a selected name" :: msgs), ctx)
          | .ok (_, _) => .crashed
          | .crashed => .crashed
          | .outOfFuel => .outOfFuel
        else
          match run_task a fuel (.lookup_name region name) ctx with
          | .ok (.lookup (.ok (.single visible_decl)), ctx) =>
              -- @TODO handle others: only packages become potentially visible
              let region :=
                match visible_decl.decl with
                | .package _ _ => region.make_potentially_visible visible_decl
                | _ => region
              run_task a fuel (.use_clause_names region rest use_pos) ctx
          | .ok (.lookup (.ok (.all_within pfx visible_decl)), ctx) =>
              match visible_decl.decl with
              | .library library_name =>
                  match a.region_of_library library_name with
                  | some library_region =>
                      run_task a fuel (.use_clause_names
                        (region.make_all_potentially_visible library_region) rest use_pos) ctx
                  | none => .crashed
              | .package library_name package_name =>
                  match a.root.get_library library_name with
                  | some library =>
                      match library.find_package package_name with
                      | some package =>
                          match run_task a fuel (.package_region library package) ctx with
                          | .ok (.opt_region (some package_region), ctx) =>
                              run_task a fuel (.use_clause_names
                                (region.make_all_potentially_visible package_region)
                                rest use_pos) ctx
                          | .ok (.opt_region none, ctx) =>
                              match run_task a fuel (.use_clause_names region rest use_pos) ctx with
                              | .ok (.region_msgs region msgs, ctx) =>
                                  .ok (.region_msgs region
                                    (Message.error pfx.pos
                                      ("Found circular dependencies when using package '" ++
                                        package.name ++ "'") :: msgs), ctx)
                              | .ok (_, _) => .crashed
                              | .crashed => .crashed
                              | .outOfFuel => .outOfFuel
                          | .ok (_, _) => .crashed
                          | .crashed => .crashed
                          | .outOfFuel => .outOfFuel
                      | none => .crashed
                  | none => .crashed
              | _ => run_task a fuel (.use_clause_names region rest use_pos) ctx
          | .ok (.lookup (.ok .unfinished), ctx) =>
              run_task a fuel (.use_clause_names region rest use_pos) ctx
          | .ok (.lookup (.ok .not_selected), ctx) =>
              match run_task a fuel (.use_clause_names region rest use_pos) ctx with
              | .ok (.region_msgs region msgs, ctx) =>
                  .ok (.region_msgs region
                    (Message.error use_pos "Use clause must be a selected name" :: msgs), ctx)
              | .ok (_, _) => .crashed
              | .crashed => .crashed
              | .outOfFuel => .outOfFuel
          | .ok (.lookup (.error msg), ctx) =>
              match run_task a fuel (.use_clause_names region rest use_pos) ctx with
              | .ok (.region_msgs region msgs, ctx) =>
                  .ok (.region_msgs region (msg :: msgs), ctx)
              | .ok (_, _) => .crashed
              | .crashed => .crashed
              | .outOfFuel => .outOfFuel
          | .ok (_, _) => .crashed
          | .crashed => .crashed
          | .outOfFuel => .outOfFuel
    /- `Analyzer::analyze_context_clause` -/
    | .context_clause region items =>
      match items with
      | [] => .ok (.region_msgs region [], ctx)
      | context_item :: rest =>
        match context_item.item with
        | .library clause =>
            let (region, msgs) := analyze_library_clause a region clause.name_list
            match run_task a fuel (.context_clause region rest) ctx with
            | .ok (.region_msgs region msgs2, ctx) =>
                .ok (.region_msgs region (msgs ++ msgs2), ctx)
            | .ok (_, _) => .crashed
            | .crashed => .crashed
            | .outOfFuel => .outOfFuel
        | .use use_clause =>
            match run_task a fuel
                (.use_clause_names region use_clause.name_list context_item.pos) ctx with
            | .ok (.region_msgs region msgs, ctx) =>
                match run_task a fuel (.context_clause region rest) ctx with
                | .ok (.region_msgs region msgs2, ctx) =>
                    .ok (.region_msgs region (msgs ++ msgs2), ctx)
                | .ok (_, _) => .crashed
                | .crashed => .crashed
                | .outOfFuel => .outOfFuel
            | .ok (_, _) => .crashed
            | .crashed => .crashed
            | .outOfFuel => .outOfFuel
        | .context clause =>
            match run_task a fuel
                (.context_ref_names region clause.name_list context_item.pos) ctx with
            | .ok (.region_msgs region msgs, ctx) =>
                match run_task a fuel (.context_clause region rest) ctx with
                | .ok (.region_msgs region msgs2, ctx) =>
                    .ok (.region_msgs region (msgs ++ msgs2), ctx)
                | .ok (_, _) => .crashed
                | .crashed => .crashed
                | .outOfFuel => .outOfFuel
            | .ok (_, _) => .crashed
            | .crashed => .crashed
            | .outOfFuel => .outOfFuel
    /- the `ContextItem::Context` loop of `analyze_context_clause` -/
    | .context_ref_names region names item_pos =>
      match names with
      | [] => .ok (.region_msgs region [], ctx)
      | name :: rest =>
        match name.item with
        | .selected _ _ =>
            match run_task a fuel (.lookup_name region name) ctx with
            | .ok (.lookup (.ok (.single visible_decl)), ctx) =>
                match visible_decl.decl with
                | .context library_name context_name =>
                    -- the referenced context's items are inlined with a
                    -- disposable message sink
                    match a.root.get_library library_name with
                    | some library =>
                        match library.contexts.find? (fun c => c.ident.item = context_name) with
                        | some context =>
                            match run_task a fuel (.context_clause region context.items) ctx with
                            | .ok (.region_msgs region _ignored, ctx) =>
                                run_task a fuel (.context_ref_names region rest item_pos) ctx
                            | .ok (_, _) => .crashed
                            | .crashed => .crashed
                            | .outOfFuel => .outOfFuel
                        | none => .crashed
                    | none => .crashed
                | _ =>
                    let msgs1 :=
                      match name.item with
                      | .selected _ suffix =>
                          [Message.error suffix.pos
                            ("'" ++ suffix.item.describe ++
                              "' does not denote a context declaration")]
                      | _ => []
                    match run_task a fuel (.context_ref_names region rest item_pos) ctx with
                    | .ok (.region_msgs region msgs, ctx) =>
                        .ok (.region_msgs region (msgs1 ++ msgs), ctx)
                    | .ok (_, _) => .crashed
                    | .crashed => .crashed
                    | .outOfFuel => .outOfFuel
            | .ok (.lookup (.ok (.all_within _ _)), ctx) =>
                -- @TODO
                run_task a fuel (.context_ref_names region rest item_pos) ctx
            | .ok (.lookup (.ok .unfinished), ctx) =>
                run_task a fuel (.context_ref_names region rest item_pos) ctx
            | .ok (.lookup (.ok .not_selected), ctx) =>
                match run_task a fuel (.context_ref_names region rest item_pos) ctx with
                | .ok (.region_msgs region msgs, ctx) =>
                    .ok (.region_msgs region
                      (Message.error item_pos "Context reference must be a selected name"
                        :: msgs), ctx)
                | .ok (_, _) => .crashed
                | .crashed => .crashed
                | .outOfFuel => .outOfFuel
            | .ok (.lookup (.error msg), ctx) =>
                match run_task a fuel (.context_ref_names region rest item_pos) ctx with
                | .ok (.region_msgs region msgs, ctx) =>
                    .ok (.region_msgs region (msg :: msgs), ctx)
                | .ok (_, _) => .crashed
                | .crashed => .crashed
                | .outOfFuel => .outOfFuel
            | .ok (_, _) => .crashed
            | .crashed => .crashed
            | .outOfFuel => .outOfFuel
        | _ =>
            match run_task a fuel (.context_ref_names region rest item_pos) ctx with
            | .ok (.region_msgs region msgs, ctx) =>
                .ok (.region_msgs region
                  (Message.error item_pos "Context reference must be a selected name"
                    :: msgs), ctx)
            | .ok (_, _) => .crashed
            | .crashed => .crashed
            | .outOfFuel => .outOfFuel
    /- `Analyzer::analyze_declarative_part` -/
    | .declarative_part region declarations =>
      match declarations with
      | [] => .ok (.region_msgs region [], ctx)
      | decl :: rest =>
          match run_task a fuel (.declaration region decl) ctx with
          | .ok (.region_msgs region msgs, ctx) =>
              match run_task a fuel (.declarative_part region rest) ctx with
              | .ok (.region_msgs region msgs2, ctx) =>
                  .ok (.region_msgs region (msgs ++ msgs2), ctx)
              | .ok (_, _) => .crashed
              | .crashed => .crashed
              | .outOfFuel => .outOfFuel
          | .ok (_, _) => .crashed
          | .crashed => .crashed
          | .outOfFuel => .outOfFuel
    /- `Analyzer::analyze_declaration` -/
    | .declaration region decl =>
      match decl with
      | .object ident is_constant has_expression =>
          let (region, msgs) :=
            region.add (VisibleDeclaration.new ident (.decl_object is_constant has_expression))
          .ok (.region_msgs region msgs, ctx)
      | .use use_clause =>
          run_task a fuel (.use_clause_names region use_clause.item.name_list use_clause.pos) ctx
      | .protected_type_decl ident =>
          let (region, msgs) :=
            region.add (VisibleDeclaration.new ident .decl_protected_type)
          .ok (.region_msgs region msgs, ctx)
      | .protected_type_body ident =>
          let (region, msgs) :=
            region.add (VisibleDeclaration.new ident .decl_protected_body)
          .ok (.region_msgs region msgs, ctx)
    /- `Analyzer::get_package_region` -/
    | .package_region library package =>
      match ctx.get_region library.name package.name with
      | some region => .ok (.opt_region (some region), ctx)
      | none =>
          -- analyzed on demand with a disposable message sink
          match run_task a fuel (.root_region library) ctx with
          | .ok (.region root_region, ctx) =>
              match run_task a fuel
                  (.package_declaration_unit root_region library package) ctx with
              | .ok (.opt_region_msgs result _ignored, ctx) => .ok (.opt_region result, ctx)
              | .ok (_, _) => .crashed
              | .crashed => .crashed
              | .outOfFuel => .outOfFuel
          | .ok (_, _) => .crashed
          | .crashed => .crashed
          | .outOfFuel => .outOfFuel
    /- `Analyzer::new_root_region` -/
    | .root_region work =>
      let region := (DeclarativeRegion.new none).make_library_visible a.work_sym work.name
      match a.root.get_library a.std_sym with
      | none => .ok (.region region, ctx)
      | some library =>
          let region := region.make_library_visible a.std_sym library.name
          match a.region_of_library library.name with
          | none => .crashed
          | some library_region =>
              match library_region.lookup a.standard_designator with
              | some visible_decl =>
                  match visible_decl.decl with
                  | .package std_library_name standard_package_name =>
                      match a.root.get_library std_library_name with
                      | some std_library =>
                          match std_library.find_package standard_package_name with
                          | some standard_pkg =>
                              match run_task a fuel (.package_region std_library standard_pkg) ctx with
                              | .ok (.opt_region (some standard_pkg_region), ctx) =>
                                  .ok (.region
                                    (region.make_all_potentially_visible standard_pkg_region), ctx)
                              | .ok (.opt_region none, _) =>
                                  -- `.expect("Found circular dependency when using
                                  -- STD.STANDARD package")`
                                  .crashed
                              | .ok (_, _) => .crashed
                              | .crashed => .crashed
                              | .outOfFuel => .outOfFuel
                          | none => .crashed
                      | none => .crashed
                  | _ => .crashed
              | none => .crashed
    /- `Analyzer::analyze_package_declaration` -/
    | .package_declaration parent package =>
      let region := (DeclarativeRegion.new (some parent)).in_package_declaration
      let (region, msgs1) :=
        match package.generic_clause with
        | some list => region.add_interface_list list
        | none => (region, [])
      match run_task a fuel (.declarative_part region package.decl) ctx with
      | .ok (.region_msgs region msgs2, ctx) =>
          .ok (.region_msgs region (msgs1 ++ msgs2), ctx)
      | .ok (_, _) => .crashed
      | .crashed => .crashed
      | .outOfFuel => .outOfFuel
    /- `Analyzer::analyze_package_declaration_unit` -/
    | .package_declaration_unit root_region library package =>
      match ctx.lock library.name package.name with
      | none =>
          let msg := Message.error package.ident.pos
            ("Found circular dependency when analyzing '" ++ library.name ++ "." ++
              package.name ++ "'")
          let ctx := ctx.set_region library.name package.name none
          .ok (.opt_region_msgs none [msg], ctx)
      | some ctx =>
          match run_task a fuel (.context_clause root_region package.package.context_clause) ctx with
          | .ok (.region_msgs root_region msgs1, ctx) =>
              match run_task a fuel (.package_declaration root_region package.package.unit) ctx with
              | .ok (.region_msgs region msgs2, ctx) =>
                  let (region, msgs3) :=
                    if package.body.isSome then region.close_immediate else region.close_both
                  let ctx := ctx.set_region library.name package.name
                    (some region.into_owned_parent)
                  let result := ctx.get_region library.name package.name
                  -- the LockGuard is dropped when the call returns
                  let ctx := ctx.drop_lock library.name package.name
                  .ok (.opt_region_msgs result (msgs1 ++ msgs2 ++ msgs3), ctx)
              | .ok (_, _) => .crashed
              | .crashed => .crashed
              | .outOfFuel => .outOfFuel
          | .ok (_, _) => .crashed
          | .crashed => .crashed
          | .outOfFuel => .outOfFuel
    /- `Analyzer::analyze_generate_body` -/
    | .generate_body parent body =>
      let region := DeclarativeRegion.new (some parent)
      match body.decl with
      | some decl =>
          match run_task a fuel (.declarative_part region decl) ctx with
          | .ok (.region_msgs region msgs, ctx) =>
              match run_task a fuel (.concurrent_part region body.statements) ctx with
              | .ok (.msgs msgs2, ctx) => .ok (.msgs (msgs ++ msgs2), ctx)
              | .ok (_, _) => .crashed
              | .crashed => .crashed
              | .outOfFuel => .outOfFuel
          | .ok (_, _) => .crashed
          | .crashed => .crashed
          | .outOfFuel => .outOfFuel
      | none =>
          match run_task a fuel (.concurrent_part region body.statements) ctx with
          | .ok (.msgs msgs2, ctx) => .ok (.msgs msgs2, ctx)
          | .ok (_, _) => .crashed
          | .crashed => .crashed
          | .outOfFuel => .outOfFuel
    /- `Analyzer::analyze_concurrent_statement` -/
    | .concurrent_statement parent statement =>
      match statement with
      | .block decl statements =>
          let region := DeclarativeRegion.new (some parent)
          match run_task a fuel (.declarative_part region decl) ctx with
          | .ok (.region_msgs region msgs, ctx) =>
              match run_task a fuel (.concurrent_part region statements) ctx with
              | .ok (.msgs msgs2, ctx) => .ok (.msgs (msgs ++ msgs2), ctx)
              | .ok (_, _) => .crashed
              | .crashed => .crashed
              | .outOfFuel => .outOfFuel
          | .ok (_, _) => .crashed
          | .crashed => .crashed
          | .outOfFuel => .outOfFuel
      | .process decl =>
          let region := DeclarativeRegion.new (some parent)
          match run_task a fuel (.declarative_part region decl) ctx with
          | .ok (.region_msgs _ msgs, ctx) => .ok (.msgs msgs, ctx)
          | .ok (_, _) => .crashed
          | .crashed => .crashed
          | .outOfFuel => .outOfFuel
      | .for_generate body => run_task a fuel (.generate_body parent body) ctx
      | .if_generate conditionals else_item =>
          match run_task a fuel (.concurrent_part parent
              (conditionals.map ConcurrentStatement.for_generate)) ctx with
          | .ok (.msgs msgs, ctx) =>
              match else_item with
              | some else_body =>
                  match run_task a fuel (.generate_body parent else_body) ctx with
                  | .ok (.msgs msgs2, ctx) => .ok (.msgs (msgs ++ msgs2), ctx)
                  | .ok (_, _) => .crashed
                  | .crashed => .crashed
                  | .outOfFuel => .outOfFuel
              | none => .ok (.msgs msgs, ctx)
          | .ok (_, _) => .crashed
          | .crashed => .crashed
          | .outOfFuel => .outOfFuel
      | .case_generate alternatives =>
          run_task a fuel (.concurrent_part parent
            (alternatives.map ConcurrentStatement.for_generate)) ctx
      | .other => .ok (.msgs [], ctx)
    /- `Analyzer::analyze_concurrent_part` -/
    | .concurrent_part parent statements =>
      match statements with
      | [] => .ok (.msgs [], ctx)
      | statement :: rest =>
          match run_task a fuel (.concurrent_statement parent statement) ctx with
          | .ok (.msgs msgs, ctx) =>
              match run_task a fuel (.concurrent_part parent rest) ctx with
              | .ok (.msgs msgs2, ctx) => .ok (.msgs (msgs ++ msgs2), ctx)
              | .ok (_, _) => .crashed
              | .crashed => .crashed
              | .outOfFuel => .outOfFuel
          | .ok (_, _) => .crashed
          | .crashed => .crashed
          | .outOfFuel => .outOfFuel

/-! ## Named wrappers for the engine's functions -/

def lookup_selected_name (fuel : Nat) (a : Analyzer) (region : DeclarativeRegion)
    (name : WithPos Name) (ctx : AnalysisContext) :
    Res ((Except Message LookupResult) × AnalysisContext) :=
  match run_task a fuel (.lookup_name region name) ctx with
  | .ok (.lookup r, ctx) => .ok (r, ctx)
  | .ok (_, _) => .crashed
  | .crashed => .crashed
  | .outOfFuel => .outOfFuel

def analyze_use_clause (fuel : Nat) (a : Analyzer) (region : DeclarativeRegion)
    (use_clause : UseClause) (use_pos : SrcPos) (ctx : AnalysisContext) :
    Res ((DeclarativeRegion × List Message) × AnalysisContext) :=
  match run_task a fuel (.use_clause_names region use_clause.name_list use_pos) ctx with
  | .ok (.region_msgs region msgs, ctx) => .ok ((region, msgs), ctx)
  | .ok (_, _) => .crashed
  | .crashed => .crashed
  | .outOfFuel => .outOfFuel

def analyze_context_clause (fuel : Nat) (a : Analyzer) (region : DeclarativeRegion)
    (items : List (WithPos ContextItem)) (ctx : AnalysisContext) :
    Res ((DeclarativeRegion × List Message) × AnalysisContext) :=
  match run_task a fuel (.context_clause region items) ctx with
  | .ok (.region_msgs region msgs, ctx) => .ok ((region, msgs), ctx)
  | .ok (_, _) => .crashed
  | .crashed => .crashed
  | .outOfFuel => .outOfFuel

def analyze_declarative_part (fuel : Nat) (a : Analyzer) (region : DeclarativeRegion)
    (declarations : List Declaration) (ctx : AnalysisContext) :
    Res ((DeclarativeRegion × List Message) × AnalysisContext) :=
  match run_task a fuel (.declarative_part region declarations) ctx with
  | .ok (.region_msgs region msgs, ctx) => .ok ((region, msgs), ctx)
  | .ok (_, _) => .crashed
  | .crashed => .crashed
  | .outOfFuel => .outOfFuel

def get_package_region (fuel : Nat) (a : Analyzer) (library : Library)
    (package : PackageDesignUnit) (ctx : AnalysisContext) :
    Res (Option DeclarativeRegion × AnalysisContext) :=
  match run_task a fuel (.package_region library package) ctx with
  | .ok (.opt_region r, ctx) => .ok (r, ctx)
  | .ok (_, _) => .crashed
  | .crashed => .crashed
  | .outOfFuel => .outOfFuel

def new_root_region (fuel : Nat) (a : Analyzer) (work : Library)
    (ctx : AnalysisContext) : Res (DeclarativeRegion × AnalysisContext) :=
  match run_task a fuel (.root_region work) ctx with
  | .ok (.region r, ctx) => .ok (r, ctx)
  | .ok (_, _) => .crashed
  | .crashed => .crashed
  | .outOfFuel => .outOfFuel

def analyze_package_declaration_unit (fuel : Nat) (a : Analyzer)
    (root_region : DeclarativeRegion) (library : Library) (package : PackageDesignUnit)
    (ctx : AnalysisContext) :
    Res ((Option DeclarativeRegion × List Message) × AnalysisContext) :=
  match run_task a fuel (.package_declaration_unit root_region library package) ctx with
  | .ok (.opt_region_msgs r msgs, ctx) => .ok ((r, msgs), ctx)
  | .ok (_, _) => .crashed
  | .crashed => .crashed
  | .outOfFuel => .outOfFuel

/-! ## Unit-level orchestration -/

/-- `Analyzer::analyze_package_body_unit`. -/
def analyze_package_body_unit (fuel : Nat) (a : Analyzer) (library : Library)
    (package : PackageDesignUnit) (ctx : AnalysisContext) :
    Res (AnalysisContext × List Message) :=
  match package.body with
  | none => .ok (ctx, [])
  | some body =>
      match run_task a fuel (.package_region library package) ctx with
      | .ok (.opt_region none, ctx) =>
          -- circular dependencies when analyzing the package declaration
          .ok (ctx, [])
      | .ok (.opt_region (some primary_region), ctx) =>
          match primary_region.clone_parent with
          | none => .crashed
          | some root_region =>
              match run_task a fuel (.context_clause root_region body.context_clause) ctx with
              | .ok (.region_msgs root_region msgs1, ctx) =>
                  let region := primary_region.into_extended root_region
                  match run_task a fuel (.declarative_part region body.decl) ctx with
                  | .ok (.region_msgs region msgs2, ctx) =>
                      let (_, msgs3) := region.close_both
                      .ok (ctx, msgs1 ++ msgs2 ++ msgs3)
                  | .ok (_, _) => .crashed
                  | .crashed => .crashed
                  | .outOfFuel => .outOfFuel
              | .ok (_, _) => .crashed
              | .crashed => .crashed
              | .outOfFuel => .outOfFuel
      | .ok (_, _) => .crashed
      | .crashed => .crashed
      | .outOfFuel => .outOfFuel

/-- `Analyzer::analyze_package`. -/
def analyze_package (fuel : Nat) (a : Analyzer) (root_region : DeclarativeRegion)
    (library : Library) (package : PackageDesignUnit) (ctx : AnalysisContext) :
    Res (AnalysisContext × List Message) :=
  match run_task a fuel (.package_declaration_unit root_region library package) ctx with
  | .ok (.opt_region_msgs _ msgs1, ctx) =>
      match analyze_package_body_unit fuel a library package ctx with
      | .ok (ctx, msgs2) => .ok (ctx, msgs1 ++ msgs2)
      | .crashed => .crashed
      | .outOfFuel => .outOfFuel
  | .ok (_, _) => .crashed
  | .crashed => .crashed
  | .outOfFuel => .outOfFuel

/-- `Analyzer::analyze_entity_declaration`. -/
def analyze_entity_declaration (fuel : Nat) (a : Analyzer) (region : DeclarativeRegion)
    (entity : EntityDeclaration) (ctx : AnalysisContext) :
    Res ((DeclarativeRegion × List Message) × AnalysisContext) :=
  let (region, msgs_generic) :=
    match entity.generic_clause with
    | some list => region.add_interface_list list
    | none => (region, [])
  let (region, msgs_port) :=
    match entity.port_clause with
    | some list => region.add_interface_list list
    | none => (region, [])
  match run_task a fuel (.declarative_part region entity.decl) ctx with
  | .ok (.region_msgs region msgs_decl, ctx) =>
      match run_task a fuel (.concurrent_part region entity.statements) ctx with
      | .ok (.msgs msgs_stmts, ctx) =>
          .ok ((region, msgs_generic ++ msgs_port ++ msgs_decl ++ msgs_stmts), ctx)
      | .ok (_, _) => .crashed
      | .crashed => .crashed
      | .outOfFuel => .outOfFuel
  | .ok (_, _) => .crashed
  | .crashed => .crashed
  | .outOfFuel => .outOfFuel

/-- The architecture loop of `Analyzer::analyze_library`: each
architecture reroots a clone of the entity region with its own context
clause, extends the entity region against it, analyzes the architecture
body (`analyze_architecture_body`) and closes both scopes. -/
def analyze_entity_architectures (fuel : Nat) (a : Analyzer)
    (region : DeclarativeRegion) : List ArchitectureBody → AnalysisContext →
    Res (AnalysisContext × List Message)
  | [], ctx => .ok (ctx, [])
  | architecture :: rest, ctx =>
      match run_task a fuel (.context_clause region architecture.context_clause) ctx with
      | .ok (.region_msgs root_region msgs1, ctx) =>
          let arch_region := region.into_extended root_region
          match run_task a fuel (.declarative_part arch_region architecture.unit.decl) ctx with
          | .ok (.region_msgs arch_region msgs2, ctx) =>
              match run_task a fuel
                  (.concurrent_part arch_region architecture.unit.statements) ctx with
              | .ok (.msgs msgs3, ctx) =>
                  let (_, msgs4) := arch_region.close_both
                  match analyze_entity_architectures fuel a region rest ctx with
                  | .ok (ctx, msgs5) => .ok (ctx, msgs1 ++ msgs2 ++ msgs3 ++ msgs4 ++ msgs5)
                  | .crashed => .crashed
                  | .outOfFuel => .outOfFuel
              | .ok (_, _) => .crashed
              | .crashed => .crashed
              | .outOfFuel => .outOfFuel
          | .ok (_, _) => .crashed
          | .crashed => .crashed
          | .outOfFuel => .outOfFuel
      | .ok (_, _) => .crashed
      | .crashed => .crashed
      | .outOfFuel => .outOfFuel

/-- The package loop of `Analyzer::analyze_library`. -/
def analyze_library_packages (fuel : Nat) (a : Analyzer) (library : Library) :
    List PackageDesignUnit → AnalysisContext → Res (AnalysisContext × List Message)
  | [], ctx => .ok (ctx, [])
  | package :: rest, ctx =>
      match run_task a fuel (.root_region library) ctx with
      | .ok (.region root_region, ctx) =>
          match analyze_package fuel a root_region library package ctx with
          | .ok (ctx, msgs1) =>
              match analyze_library_packages fuel a library rest ctx with
              | .ok (ctx, msgs2) => .ok (ctx, msgs1 ++ msgs2)
              | .crashed => .crashed
              | .outOfFuel => .outOfFuel
          | .crashed => .crashed
          | .outOfFuel => .outOfFuel
      | .ok (_, _) => .crashed
      | .crashed => .crashed
      | .outOfFuel => .outOfFuel

/-- The package-instance loop of `Analyzer::analyze_library` (context
clauses only). -/
def analyze_library_instances (fuel : Nat) (a : Analyzer) (library : Library) :
    List PackageInstance → AnalysisContext → Res (AnalysisContext × List Message)
  | [], ctx => .ok (ctx, [])
  | inst :: rest, ctx =>
      match run_task a fuel (.root_region library) ctx with
      | .ok (.region root_region, ctx) =>
          match run_task a fuel (.context_clause root_region inst.context_clause) ctx with
          | .ok (.region_msgs _ msgs1, ctx) =>
              match analyze_library_instances fuel a library rest ctx with
              | .ok (ctx, msgs2) => .ok (ctx, msgs1 ++ msgs2)
              | .crashed => .crashed
              | .outOfFuel => .outOfFuel
          | .ok (_, _) => .crashed
          | .crashed => .crashed
          | .outOfFuel => .outOfFuel
      | .ok (_, _) => .crashed
      | .crashed => .crashed
      | .outOfFuel => .outOfFuel

/-- The context-declaration loop of `Analyzer::analyze_library`. -/
def analyze_library_contexts (fuel : Nat) (a : Analyzer) (library : Library) :
    List ContextDeclaration → AnalysisContext → Res (AnalysisContext × List Message)
  | [], ctx => .ok (ctx, [])
  | context :: rest, ctx =>
      match run_task a fuel (.root_region library) ctx with
      | .ok (.region root_region, ctx) =>
          match run_task a fuel (.context_clause root_region context.items) ctx with
          | .ok (.region_msgs _ msgs1, ctx) =>
              match analyze_library_contexts fuel a library rest ctx with
              | .ok (ctx, msgs2) => .ok (ctx, msgs1 ++ msgs2)
              | .crashed => .crashed
              | .outOfFuel => .outOfFuel
          | .ok (_, _) => .crashed
          | .crashed => .crashed
          | .outOfFuel => .outOfFuel
      | .ok (_, _) => .crashed
      | .crashed => .crashed
      | .outOfFuel => .outOfFuel

/-- The entity loop of `Analyzer::analyze_library`. -/
def analyze_library_entities (fuel : Nat) (a : Analyzer) (library : Library) :
    List EntityDesignUnit → AnalysisContext → Res (AnalysisContext × List Message)
  | [], ctx => .ok (ctx, [])
  | entity :: rest, ctx =>
      match run_task a fuel (.root_region library) ctx with
      | .ok (.region root_region, ctx) =>
          match run_task a fuel (.context_clause root_region entity.entity.context_clause) ctx with
          | .ok (.region_msgs root_region msgs1, ctx) =>
              let region := DeclarativeRegion.new (some root_region)
              match analyze_entity_declaration fuel a region entity.entity.unit ctx with
              | .ok ((region, msgs2), ctx) =>
                  let (region, msgs3) := region.close_immediate
                  match analyze_entity_architectures fuel a region entity.architectures ctx with
                  | .ok (ctx, msgs4) =>
                      match analyze_library_entities fuel a library rest ctx with
                      | .ok (ctx, msgs5) =>
                          .ok (ctx, msgs1 ++ msgs2 ++ msgs3 ++ msgs4 ++ msgs5)
                      | .crashed => .crashed
                      | .outOfFuel => .outOfFuel
                  | .crashed => .crashed
                  | .outOfFuel => .outOfFuel
              | .crashed => .crashed
              | .outOfFuel => .outOfFuel
          | .ok (_, _) => .crashed
          | .crashed => .crashed
          | .outOfFuel => .outOfFuel
      | .ok (_, _) => .crashed
      | .crashed => .crashed
      | .outOfFuel => .outOfFuel

/-- `Analyzer::analyze_library`: packages, then package instances, then
contexts, then entities. -/
def analyze_library (fuel : Nat) (a : Analyzer) (library : Library)
    (ctx : AnalysisContext) : Res (AnalysisContext × List Message) :=
  match analyze_library_packages fuel a library library.packages ctx with
  | .ok (ctx, msgs1) =>
      match analyze_library_instances fuel a library library.package_instances ctx with
      | .ok (ctx, msgs2) =>
          match analyze_library_contexts fuel a library library.contexts ctx with
          | .ok (ctx, msgs3) =>
              match analyze_library_entities fuel a library library.entities ctx with
              | .ok (ctx, msgs4) => .ok (ctx, msgs1 ++ msgs2 ++ msgs3 ++ msgs4)
              | .crashed => .crashed
              | .outOfFuel => .outOfFuel
          | .crashed => .crashed
          | .outOfFuel => .outOfFuel
      | .crashed => .crashed
      | .outOfFuel => .outOfFuel
  | .crashed => .crashed
  | .outOfFuel => .outOfFuel

/-- The std pass of `Analyzer::analyze`: every package of the standard
library is analyzed against a fresh empty root region. -/
def analyze_std_packages (fuel : Nat) (a : Analyzer) (library : Library) :
    List PackageDesignUnit → AnalysisContext → Res (AnalysisContext × List Message)
  | [], ctx => .ok (ctx, [])
  | package :: rest, ctx =>
      match analyze_package fuel a (DeclarativeRegion.new none) library package ctx with
      | .ok (ctx, msgs1) =>
          match analyze_std_packages fuel a library rest ctx with
          | .ok (ctx, msgs2) => .ok (ctx, msgs1 ++ msgs2)
          | .crashed => .crashed
          | .outOfFuel => .outOfFuel
      | .crashed => .crashed
      | .outOfFuel => .outOfFuel

/-- The library loop of `Analyzer::analyze`, with the in-loop skip of the
already-analyzed standard library (`continue`). -/
def analyze_libraries (fuel : Nat) (a : Analyzer) :
    List Library → AnalysisContext → Res (AnalysisContext × List Message)
  | [], ctx => .ok (ctx, [])
  | library :: rest, ctx =>
      if library.name = a.std_sym then
        analyze_libraries fuel a rest ctx
      else
        match analyze_library fuel a library ctx with
        | .ok (ctx, msgs1) =>
            match analyze_libraries fuel a rest ctx with
            | .ok (ctx, msgs2) => .ok (ctx, msgs1 ++ msgs2)
            | .crashed => .crashed
            | .outOfFuel => .outOfFuel
        | .crashed => .crashed
        | .outOfFuel => .outOfFuel

/-- `Analyzer::analyze`: the standard library's packages first, then every
library (skipping std inside the loop). -/
def analyze (fuel : Nat) (a : Analyzer) (ctx : AnalysisContext) :
    Res (AnalysisContext × List Message) :=
  match a.root.get_library a.std_sym with
  | some library =>
      match analyze_std_packages fuel a library library.packages ctx with
      | .ok (ctx, msgs1) =>
          match analyze_libraries fuel a a.root.libraries ctx with
          | .ok (ctx, msgs2) => .ok (ctx, msgs1 ++ msgs2)
          | .crashed => .crashed
          | .outOfFuel => .outOfFuel
      | .crashed => .crashed
      | .outOfFuel => .outOfFuel
  | none => analyze_libraries fuel a a.root.libraries ctx

/-- The library loop as the specification words it: a plain pass over the
libraries, the standard library having been removed up front. -/
def analyze_libraries_plain (fuel : Nat) (a : Analyzer) :
    List Library → AnalysisContext → Res (AnalysisContext × List Message)
  | [], ctx => .ok (ctx, [])
  | library :: rest, ctx =>
      match analyze_library fuel a library ctx with
      | .ok (ctx, msgs1) =>
          match analyze_libraries_plain fuel a rest ctx with
          | .ok (ctx, msgs2) => .ok (ctx, msgs1 ++ msgs2)
          | .crashed => .crashed
          | .outOfFuel => .outOfFuel
      | .crashed => .crashed
      | .outOfFuel => .outOfFuel

/-- `Analyzer::analyze` as the specification words it: "The global pass
analyzes the `std` library's packages first, unconditionally, before any
other library, and skips `std` during the general library loop" — i.e.
the std pass, followed by a plain pass over the non-std libraries. -/
def analyze_spec (fuel : Nat) (a : Analyzer) (ctx : AnalysisContext) :
    Res (AnalysisContext × List Message) :=
  match a.root.get_library a.std_sym with
  | some library =>
      match analyze_std_packages fuel a library library.packages ctx with
      | .ok (ctx, msgs1) =>
          match analyze_libraries_plain fuel a
              (a.root.libraries.filter (fun l => l.name ≠ a.std_sym)) ctx with
          | .ok (ctx, msgs2) => .ok (ctx, msgs1 ++ msgs2)
          | .crashed => .crashed
          | .outOfFuel => .outOfFuel
      | .crashed => .crashed
      | .outOfFuel => .outOfFuel
  | none =>
      analyze_libraries_plain fuel a
        (a.root.libraries.filter (fun l => l.name ≠ a.std_sym)) ctx

/-- Project the message list out of a whole-project run. -/
def analyze_messages (fuel : Nat) (a : Analyzer) (ctx : AnalysisContext) :
    Res (List Message) :=
  match analyze fuel a ctx with
  | .ok (_, msgs) => .ok msgs
  | .crashed => .crashed
  | .outOfFuel => .outOfFuel

/-! ## Concrete designs used by the theorems

Positions are arbitrary distinct naturals standing for source locations.
-/

/-- The name `work.pkg2.const` of pkg1's use clause; the prefix
`work.pkg2` sits at position 13. -/
def c1_use_pkg2_name : WithPos Name :=
  ⟨.selected ⟨.selected ⟨.designator (.identifier "work"), 11⟩ ⟨.identifier "pkg2", 12⟩, 13⟩
    ⟨.identifier "const", 14⟩, 15⟩

/-- The name `work.pkg1.const` of pkg2's use clause; the prefix
`work.pkg1` sits at position 23. -/
def c1_use_pkg1_name : WithPos Name :=
  ⟨.selected ⟨.selected ⟨.designator (.identifier "work"), 21⟩ ⟨.identifier "pkg1", 22⟩, 23⟩
    ⟨.identifier "const", 24⟩, 25⟩

/-- `use work.pkg2.const; package pkg1 is constant const : natural := 0; end package;` -/
def c1_pkg1 : PackageDesignUnit :=
  { package :=
      { context_clause := [⟨.use ⟨[c1_use_pkg2_name]⟩, 10⟩],
        unit := { ident := ⟨"pkg1", 16⟩, generic_clause := none,
                  decl := [.object ⟨"const", 17⟩ true true] } },
    body := none }

/-- `use work.pkg1.const; package pkg2 is constant const : natural := 0; end package;` -/
def c1_pkg2 : PackageDesignUnit :=
  { package :=
      { context_clause := [⟨.use ⟨[c1_use_pkg1_name]⟩, 20⟩],
        unit := { ident := ⟨"pkg2", 26⟩, generic_clause := none,
                  decl := [.object ⟨"const", 27⟩ true true] } },
    body := none }

/-- The circular-dependency project of the repository's
`detects_circular_dependencies` test: one library whose two packages use
each other's constant.  The unit iteration order of `Library::packages()`
is decided by `library.rs`, which is outside the sources at hand; it is
fixed here so that pkg2's unit is visited first, matching the behaviour
the repository's own test asserts (the reported package is then `pkg2`;
with the opposite order the analysis symmetrically reports `pkg1`). -/
def c1_root : DesignRoot :=
  { libraries := [{ name := "libname", packages := [c1_pkg2, c1_pkg1],
                    contexts := [], entities := [], package_instances := [] }] }

def c1_analyzer : Analyzer := (Analyzer.build c1_root).1

/-- The context reference `work.c1`. -/
def c3_ref_name : WithPos Name :=
  ⟨.selected ⟨.designator (.identifier "work"), 31⟩ ⟨.identifier "c1", 32⟩, 33⟩

/-- `context c1 is context work.c1; end context;` — a context declaration
that references itself. -/
def c3_context : ContextDeclaration :=
  { ident := ⟨"c1", 30⟩, items := [⟨.context ⟨[c3_ref_name]⟩, 34⟩] }

def c3_root : DesignRoot :=
  { libraries := [{ name := "libname", packages := [], contexts := [c3_context],
                    entities := [], package_instances := [] }] }

def c3_analyzer : Analyzer := (Analyzer.build c3_root).1

/-- The root region built for the self-referential context's library:
just the working library bound as `work`. -/
def c3_R0 : DeclarativeRegion :=
  (DeclarativeRegion.new none).make_library_visible "work" "libname"

/-- The name `work.p.c` of package k's use clause. -/
def c4_use_p_name : WithPos Name :=
  ⟨.selected ⟨.selected ⟨.designator (.identifier "work"), 46⟩ ⟨.identifier "p", 47⟩, 48⟩
    ⟨.identifier "c", 49⟩, 50⟩

/-- `package p is constant c : natural := 0; end package;` -/
def c4_pkg_p : PackageDesignUnit :=
  { package := { context_clause := [],
                 unit := { ident := ⟨"p", 40⟩, generic_clause := none,
                           decl := [.object ⟨"c", 41⟩ true true] } },
    body := none }

/-- `use work.p.c; package k is end package;` -/
def c4_pkg_k : PackageDesignUnit :=
  { package := { context_clause := [⟨.use ⟨[c4_use_p_name]⟩, 44⟩],
                 unit := { ident := ⟨"k", 45⟩, generic_clause := none, decl := [] } },
    body := none }

def c4_lib : Library :=
  { name := "lib4", packages := [c4_pkg_p, c4_pkg_k],
    contexts := [], entities := [], package_instances := [] }

def c4_root : DesignRoot := { libraries := [c4_lib] }

def c4_analyzer : Analyzer := (Analyzer.build c4_root).1

/-- A cache state in which package k's entry is the circular-dependency
sentinel (`None`) and nothing is locked. -/
def c4_ctx0 : AnalysisContext :=
  { primary_unit_data := [(("lib4", "k"), none)], locked := [] }

/-- `package standard is constant true : ... end package;` of the std
library (a stand-in for STD.STANDARD with one exported name). -/
def c10_std_pkg : PackageDesignUnit :=
  { package := { context_clause := [],
                 unit := { ident := ⟨"standard", 60⟩, generic_clause := none,
                           decl := [.object ⟨"bool", 61⟩ true true] } },
    body := none }

def c10_mylib : Library :=
  { name := "mylib", packages := [], contexts := [], entities := [],
    package_instances := [] }

/-- A design with a standard library (holding STANDARD) and a working
library whose actual name is `mylib`. -/
def c10_root : DesignRoot :=
  { libraries := [
      { name := "std", packages := [c10_std_pkg], contexts := [], entities := [],
        package_instances := [] },
      c10_mylib] }

def c10_analyzer : Analyzer := (Analyzer.build c10_root).1

/-- The analysis context after the whole-project pass over `c10_root`
(in particular STD.STANDARD is cached). -/
def c10_ctx : AnalysisContext :=
  match analyze 50 c10_analyzer AnalysisContext.new with
  | .ok (c, _) => c
  | _ => AnalysisContext.new


/-- The region `new_root_region` builds for the `mylib` working library
once STD.STANDARD is cached. -/
def c10_region : DeclarativeRegion :=
  match new_root_region 50 c10_analyzer c10_mylib c10_ctx with
  | .ok (r, _) => r
  | _ => DeclarativeRegion.new none

/-- The working library of the C1 design, by itself. -/
def c1_lib : Library :=
  { name := "libname", packages := [c1_pkg2, c1_pkg1],
    contexts := [], entities := [], package_instances := [] }

/-- One period of the context-reference inlining loop: the shape of the
two matches wrapped around the recursive `context_clause` run. -/
def c3_wrap (r : Res (TaskResult × AnalysisContext)) : Res (TaskResult × AnalysisContext) :=
  match (match r with
         | .ok (.region_msgs region _ignored, ctx) =>
             (.ok (.region_msgs region ([] : List Message), ctx) :
               Res (TaskResult × AnalysisContext))
         | .ok (_, _) => .crashed
         | .crashed => .crashed
         | .outOfFuel => .outOfFuel) with
  | .ok (.region_msgs region msgs, ctx) => .ok (.region_msgs region (msgs ++ []), ctx)
  | .ok (_, _) => .crashed
  | .crashed => .crashed
  | .outOfFuel => .outOfFuel

/-- The completion relationships under which a second same-designator
declaration legally pairs with the first: a full constant completing a
deferred constant, or a protected body completing a protected type
declaration. -/
def completion_pair (e v : AnyDeclaration) : Bool :=
  (e.is_deferred_constant && v.is_full_constant)
    || (decide (e = .decl_protected_type) && decide (v = .decl_protected_body))

def c2_region : DeclarativeRegion := (DeclarativeRegion.new none).in_package_declaration

def c2_prot_type : VisibleDeclaration :=
  { designator := .identifier "prot_t", decl := .decl_protected_type,
    decl_pos := some 81, may_overload := false }

def c2_prot_body : VisibleDeclaration :=
  { designator := .identifier "prot_t", decl := .decl_protected_body,
    decl_pos := some 82, may_overload := false }

/-- Declarations with none of the special `add` behaviours: not
overloadable, not deferred constants, not protected types or bodies.
All primary-unit bindings built by `Analyzer::new` are of this form. -/
def plain_decl (v : VisibleDeclaration) : Prop :=
  v.may_overload = false ∧ v.decl.is_deferred_constant = false ∧
  v.decl ≠ .decl_protected_body ∧ v.decl ≠ .decl_protected_type

/-- A region whose immediate entries are all single bindings of
non-deferred declarations. -/
def plain_region (r : DeclarativeRegion) : Prop :=
  ∀ p ∈ r.immediate, ∃ u, p.2 = RegionEntry.single u ∧ u.decl.is_deferred_constant = false

/-- Two packages of one library sharing the name `p`. -/
def c9_dup_pkg1 : PackageDesignUnit :=
  { package := { context_clause := [],
                 unit := { ident := ⟨"p", 85⟩, generic_clause := none, decl := [] } },
    body := none }

def c9_dup_pkg2 : PackageDesignUnit :=
  { package := { context_clause := [],
                 unit := { ident := ⟨"p", 86⟩, generic_clause := none, decl := [] } },
    body := none }

def c9_dup_lib : Library :=
  { name := "l", packages := [c9_dup_pkg1, c9_dup_pkg2],
    contexts := [], entities := [], package_instances := [] }

def c9_dup_root : DesignRoot := { libraries := [c9_dup_lib] }

/-- Cache entries are write-once: an existing entry survives. -/
def cache_preserved (c1 c2 : AnalysisContext) : Prop :=
  ∀ k v, assoc_find c1.primary_unit_data k = some v → assoc_find c2.primary_unit_data k = some v

/-- The state relation every analysis step preserves: the locked set is
restored and cache entries are never overwritten or dropped. -/
def state_pres (c1 c2 : AnalysisContext) : Prop :=
  c2.locked = c1.locked ∧ cache_preserved c1 c2

/-- A `get_package_region` call on the sentinel-poisoned cache of
`c4_ctx0`; used to observe that the call re-runs the analysis. -/
def c4_run : Res (Option DeclarativeRegion × AnalysisContext) :=
  get_package_region 30 c4_analyzer c4_lib c4_pkg_k c4_ctx0

def c4_result : Option DeclarativeRegion :=
  match c4_run with
  | .ok (r, _) => r
  | _ => some (DeclarativeRegion.new none)

def c4_ctx1 : AnalysisContext :=
  match c4_run with
  | .ok (_, c) => c
  | _ => c4_ctx0

def c4w_run : Res (Option DeclarativeRegion × AnalysisContext) :=
  get_package_region 30 c4_analyzer c4_lib c4_pkg_k c4_ctx0

def c4w_result : Option DeclarativeRegion :=
  match c4w_run with
  | .ok (r, _) => r
  | _ => some (DeclarativeRegion.new none)

def c4w_ctx1 : AnalysisContext :=
  match c4w_run with
  | .ok (_, c) => c
  | _ => c4_ctx0

/-- A successful `analyze_package_declaration_unit` run on package p. -/
def c5_run : Res ((Option DeclarativeRegion × List Message) × AnalysisContext) :=
  analyze_package_declaration_unit 30 c4_analyzer (DeclarativeRegion.new none) c4_lib
    c4_pkg_p AnalysisContext.new

def c5_out : Option DeclarativeRegion × List Message :=
  match c5_run with
  | .ok (o, _) => o
  | _ => (none, [])

def c5_ctx1 : AnalysisContext :=
  match c5_run with
  | .ok (_, c) => c
  | _ => AnalysisContext.new

/-! ## Association list and region lemmas -/

theorem assoc_find_store_same {κ α : Type} [DecidableEq κ] (l : List (κ × α)) (k : κ) (v : α) :
    assoc_find (assoc_store l k v) k = some v := by
  induction l with
  | nil => simp [assoc_store, assoc_find]
  | cons p rest ih =>
      obtain ⟨k', v'⟩ := p
      by_cases h : k' = k
      · simp [assoc_store, h, assoc_find]
      · simp [assoc_store, h, assoc_find, ih]

theorem assoc_find_mem {κ α : Type} [DecidableEq κ] (l : List (κ × α)) (k : κ) (v : α)
    (h : assoc_find l k = some v) : (k, v) ∈ l := by
  induction l with
  | nil => simp [assoc_find] at h
  | cons p rest ih =>
      obtain ⟨k', v'⟩ := p
      by_cases hk : k' = k
      · subst hk
        simp [assoc_find] at h
        simp [h]
      · simp [assoc_find, hk] at h
        exact List.mem_cons_of_mem _ (ih h)

theorem assoc_store_mem {κ α : Type} [DecidableEq κ] (l : List (κ × α)) (k : κ) (v : α)
    (p : κ × α) (h : p ∈ assoc_store l k v) : p ∈ l ∨ p = (k, v) := by
  induction l with
  | nil =>
      simp [assoc_store] at h
      exact Or.inr h
  | cons q rest ih =>
      obtain ⟨k', v'⟩ := q
      by_cases hk : k' = k
      · subst hk
        simp [assoc_store] at h
        rcases h with h | h
        · exact Or.inr h
        · exact Or.inl (List.mem_cons_of_mem _ h)
      · simp [assoc_store, hk] at h
        rcases h with h | h
        · simp [h]
        · rcases ih h with h' | h'
          · exact Or.inl (List.mem_cons_of_mem _ h')
          · exact Or.inr h'

theorem assoc_find_store_other {κ α : Type} [DecidableEq κ] (l : List (κ × α))
    (k k' : κ) (v : α) (h : k' ≠ k) :
    assoc_find (assoc_store l k v) k' = assoc_find l k' := by
  induction l with
  | nil => simp [assoc_store, assoc_find, Ne.symm h]
  | cons q rest ih =>
      obtain ⟨k0, v0⟩ := q
      by_cases hk : k0 = k
      · subst hk
        simp [assoc_store, assoc_find, Ne.symm h]
      · simp [assoc_store, hk, assoc_find]
        by_cases h0 : k0 = k'
        · simp [h0]
        · simp [h0, ih]

theorem find_immediate_store (r : DeclarativeRegion) (d : Designator) (e : RegionEntry) :
    (r.store_immediate d e).find_immediate d = some e := by
  cases r
  simp [DeclarativeRegion.store_immediate, DeclarativeRegion.find_immediate,
    DeclarativeRegion.immediate, assoc_find_store_same]

theorem find_immediate_store_other (r : DeclarativeRegion) (d d' : Designator)
    (e : RegionEntry) (h : d' ≠ d) :
    (r.store_immediate d e).find_immediate d' = r.find_immediate d' := by
  cases r
  simp [DeclarativeRegion.store_immediate, DeclarativeRegion.find_immediate,
    DeclarativeRegion.immediate, assoc_find_store_other _ _ _ _ h]

theorem find_immediate_as_assoc (r : DeclarativeRegion) (d : Designator) :
    r.find_immediate d = assoc_find r.immediate d := rfl

theorem store_in_package_decl (r : DeclarativeRegion) (d : Designator) (e : RegionEntry) :
    (r.store_immediate d e).in_package_decl = r.in_package_decl := by
  cases r
  rfl

theorem add_list_cons (r : DeclarativeRegion) (v : VisibleDeclaration)
    (rest : List VisibleDeclaration) :
    r.add_list (v :: rest)
      = ((((r.add v).1).add_list rest).1, (r.add v).2 ++ (((r.add v).1).add_list rest).2) := by
  simp [DeclarativeRegion.add_list]

/-! ## C8 — set_region is first-write-wins -/

theorem set_region_occupied (ctx : AnalysisContext) (ln pn : Symbol)
    (v w : Option DeclarativeRegion)
    (h : assoc_find ctx.primary_unit_data (ln, pn) = some w) :
    ctx.set_region ln pn v = ctx := by
  unfold AnalysisContext.set_region
  rw [h]

theorem set_region_finds (ctx : AnalysisContext) (ln pn : Symbol)
    (v : Option DeclarativeRegion) :
    ∃ w, assoc_find (ctx.set_region ln pn v).primary_unit_data (ln, pn) = some w := by
  unfold AnalysisContext.set_region
  cases hf : assoc_find ctx.primary_unit_data (ln, pn) with
  | some w => exact ⟨w, by simp [hf]⟩
  | none => exact ⟨v, by simp [hf, assoc_find]⟩

/-- C8: `AnalysisContext::set_region` is first-write-wins: when a
(library, primary-unit) key already has a cache entry — in particular
after any first `set_region` — a second `set_region` for that key leaves
the whole context unchanged, so `get_region` after the second call
returns exactly what it returned after the first. -/
theorem set_region_first_write_wins (ctx : AnalysisContext)
    (library_name primary_unit_name : Symbol) (v1 v2 : Option DeclarativeRegion) :
    ((ctx.set_region library_name primary_unit_name v1).set_region
        library_name primary_unit_name v2
      = ctx.set_region library_name primary_unit_name v1) ∧
    (((ctx.set_region library_name primary_unit_name v1).set_region
        library_name primary_unit_name v2).get_region library_name primary_unit_name
      = (ctx.set_region library_name primary_unit_name v1).get_region
          library_name primary_unit_name) := by
  obtain ⟨w, hw⟩ := set_region_finds ctx library_name primary_unit_name v1
  refine ⟨set_region_occupied _ _ _ _ w hw, ?_⟩
  rw [set_region_occupied _ _ _ _ w hw]

/-! ## C6 — library clauses -/

/-- C6: processing a library clause item in `analyze_context_clause`:
naming the `work` symbol emits exactly one hint (never an error) and
leaves the region unchanged; naming an existing library makes it visible
as a Library binding with no message; naming a missing library emits
exactly one "No such library" error and leaves the region unchanged. -/
theorem library_clause_cases (fuel : Nat) (a : Analyzer) (region : DeclarativeRegion)
    (ctx : AnalysisContext) (sym : Symbol) (npos ipos : SrcPos) :
    (sym = a.work_sym →
      analyze_context_clause (fuel + 2) a region [⟨.library ⟨[⟨sym, npos⟩]⟩, ipos⟩] ctx
        = .ok ((region,
            [Message.hint npos "Library clause not necessary for current working library"]),
            ctx)) ∧
    (∀ library, sym ≠ a.work_sym → a.root.get_library sym = some library →
      analyze_context_clause (fuel + 2) a region [⟨.library ⟨[⟨sym, npos⟩]⟩, ipos⟩] ctx
        = .ok ((region.make_library_visible library.name library.name, []), ctx)) ∧
    (sym ≠ a.work_sym → a.root.get_library sym = none →
      analyze_context_clause (fuel + 2) a region [⟨.library ⟨[⟨sym, npos⟩]⟩, ipos⟩] ctx
        = .ok ((region, [Message.error npos ("No such library '" ++ sym ++ "'")]), ctx)) := by
  refine ⟨?_, ?_, ?_⟩
  · intro h
    unfold analyze_context_clause
    simp [run_task, analyze_library_clause, h.symm]
  · intro library hne hfound
    unfold analyze_context_clause
    have : ¬ (a.work_sym = sym) := fun hh => hne hh.symm
    simp [run_task, analyze_library_clause, this, hfound]
  · intro hne hnone
    unfold analyze_context_clause
    have : ¬ (a.work_sym = sym) := fun hh => hne hh.symm
    simp [run_task, analyze_library_clause, this, hnone]

/-- C6 witness: the three cases at concrete inputs over the `c10_root`
design (whose working symbol is `work`, with library `mylib` present and
`missing` absent). -/
theorem library_clause_cases_witness :
    (analyze_context_clause 2 c10_analyzer (DeclarativeRegion.new none)
        [⟨.library ⟨[⟨"work", 70⟩]⟩, 71⟩] AnalysisContext.new
      = .ok ((DeclarativeRegion.new none,
          [Message.hint 70 "Library clause not necessary for current working library"]),
          AnalysisContext.new)) ∧
    (analyze_context_clause 2 c10_analyzer (DeclarativeRegion.new none)
        [⟨.library ⟨[⟨"mylib", 72⟩]⟩, 73⟩] AnalysisContext.new
      = .ok (((DeclarativeRegion.new none).make_library_visible c10_mylib.name c10_mylib.name,
          []), AnalysisContext.new)) ∧
    (analyze_context_clause 2 c10_analyzer (DeclarativeRegion.new none)
        [⟨.library ⟨[⟨"missing", 74⟩]⟩, 75⟩] AnalysisContext.new
      = .ok ((DeclarativeRegion.new none,
          [Message.error 74 ("No such library '" ++ "missing" ++ "'")]),
          AnalysisContext.new)) := by
  have h1 := library_clause_cases 0 c10_analyzer (DeclarativeRegion.new none)
    AnalysisContext.new "work" 70 71
  have h2 := library_clause_cases 0 c10_analyzer (DeclarativeRegion.new none)
    AnalysisContext.new "mylib" 72 73
  have h3 := library_clause_cases 0 c10_analyzer (DeclarativeRegion.new none)
    AnalysisContext.new "missing" 74 75
  exact ⟨h1.1 rfl, h2.2.1 c10_mylib (by decide) rfl, h3.2.2 (by decide) rfl⟩

/-! ## C2 — the homograph rule of `DeclarativeRegion::add` -/

/-- C2 counterexample: a protected type declaration and a protected type
body share the designator `prot_t`, both with `may_overload = false`, yet
adding both to one region produces no message at all — there is no
"Duplicate declaration" error (matching the repository's own test
`allows_protected_type_and_body_with_same_name`), so the claim that two
non-overloadable same-designator declarations always produce exactly one
duplicate error is false. -/
theorem duplicate_rule_fails_on_protected_pair :
    c2_prot_type.may_overload = false ∧ c2_prot_body.may_overload = false ∧
    c2_prot_type.designator = c2_prot_body.designator ∧
    (c2_region.add c2_prot_type).2 = [] ∧
    ((c2_region.add c2_prot_type).1.add c2_prot_body).2 = [] := by
  decide

/-- `add` of a declaration whose designator is fresh in the region, that
is not a protected body and, if it is a deferred constant, sits in a
package declaration region: the declaration is inserted with no message. -/
theorem add_fresh (r : DeclarativeRegion) (v : VisibleDeclaration)
    (h_fresh : r.find_immediate v.designator = none)
    (h_not_body : v.decl ≠ .decl_protected_body)
    (h_def : v.decl.is_deferred_constant = true → r.in_package_decl = true) :
    r.add v = (r.store_immediate v.designator
      (if v.may_overload then .overloaded [v] else .single v), []) := by
  have hg : (v.decl.is_deferred_constant && !r.in_package_decl) = false := by
    cases hd : v.decl.is_deferred_constant with
    | false => simp
    | true => simp [h_def hd]
  unfold DeclarativeRegion.add
  simp [hg, h_fresh, h_not_body]
  by_cases ho : v.may_overload <;> simp [ho]

theorem add_overload_join (r : DeclarativeRegion) (v : VisibleDeclaration)
    (vs : List VisibleDeclaration)
    (h_find : r.find_immediate v.designator = some (.overloaded vs))
    (h_def : v.decl.is_deferred_constant = true → r.in_package_decl = true)
    (ho : v.may_overload = true) :
    r.add v = (r.store_immediate v.designator (.overloaded (vs ++ [v])), []) := by
  have hg : (v.decl.is_deferred_constant && !r.in_package_decl) = false := by
    cases hd : v.decl.is_deferred_constant with
    | false => simp
    | true => simp [h_def hd]
  unfold DeclarativeRegion.add
  simp [hg, h_find, ho]

theorem add_overload_dup (r : DeclarativeRegion) (v : VisibleDeclaration)
    (vs : List VisibleDeclaration)
    (h_find : r.find_immediate v.designator = some (.overloaded vs))
    (h_def : v.decl.is_deferred_constant = true → r.in_package_decl = true)
    (ho : v.may_overload = false) :
    r.add v
      = (r, [duplicate_error v ((RegionEntry.overloaded vs).first_decl.bind (·.decl_pos))]) := by
  have hg : (v.decl.is_deferred_constant && !r.in_package_decl) = false := by
    cases hd : v.decl.is_deferred_constant with
    | false => simp
    | true => simp [h_def hd]
  unfold DeclarativeRegion.add
  simp [hg, h_find, ho]

theorem add_single_dup (r : DeclarativeRegion) (v : VisibleDeclaration)
    (e : VisibleDeclaration)
    (h_find : r.find_immediate v.designator = some (.single e))
    (h_def : v.decl.is_deferred_constant = true → r.in_package_decl = true)
    (hc1 : (e.decl.is_deferred_constant && v.decl.is_full_constant) = false)
    (hc2 : (decide (e.decl = .decl_protected_type)
        && decide (v.decl = .decl_protected_body)) = false) :
    r.add v = (r, [duplicate_error v e.decl_pos]) := by
  have hg : (v.decl.is_deferred_constant && !r.in_package_decl) = false := by
    cases hd : v.decl.is_deferred_constant with
    | false => simp
    | true => simp [h_def hd]
  unfold DeclarativeRegion.add
  simp [hg, h_find, hc1]
  intro he hv
  simp [he, hv] at hc2

/-- C2 (amended): adding two declarations with the same, previously
unused designator — neither pair forming a deferred-constant/full-constant
nor a protected type/body completion, the first not a protected body, and
deferred constants only inside package declaration regions — behaves as
the claim states: two overloadable declarations coexist with no message,
while any other overload combination yields exactly one "Duplicate
declaration" error at the second declaration's position whose related
position is the first declaration's position. -/
theorem add_homograph_rule (r : DeclarativeRegion) (v1 v2 : VisibleDeclaration)
    (p1 p2 : SrcPos)
    (h_des : v1.designator = v2.designator)
    (h_fresh : r.find_immediate v1.designator = none)
    (hp1 : v1.decl_pos = some p1) (hp2 : v2.decl_pos = some p2)
    (h_body1 : v1.decl ≠ .decl_protected_body)
    (h_def1 : v1.decl.is_deferred_constant = true → r.in_package_decl = true)
    (h_def2 : v2.decl.is_deferred_constant = true → r.in_package_decl = true)
    (h_comp : completion_pair v1.decl v2.decl = false) :
    ((v1.may_overload = true ∧ v2.may_overload = true) →
      (r.add v1).2 = [] ∧ ((r.add v1).1.add v2).2 = []) ∧
    ((v1.may_overload && v2.may_overload) = false →
      (r.add v1).2 = [] ∧ ((r.add v1).1.add v2).2 =
        [(Message.error p2 ("Duplicate declaration of '" ++ v2.designator.describe ++ "'")
          ).add_related p1 "Previously defined here"]) := by
  have hadd1 := add_fresh r v1 h_fresh h_body1 h_def1
  have hmsgs1 : (r.add v1).2 = [] := by rw [hadd1]
  have hr1 : (r.add v1).1 = r.store_immediate v1.designator
      (if v1.may_overload then .overloaded [v1] else .single v1) := by rw [hadd1]
  have hpkg2 : ∀ (e : RegionEntry),
      (r.store_immediate v1.designator e).in_package_decl = r.in_package_decl :=
    fun e => store_in_package_decl r _ e
  have hcomp' := h_comp
  rw [completion_pair, Bool.or_eq_false_iff] at hcomp'
  obtain ⟨hc1, hc2⟩ := hcomp'
  constructor
  · rintro ⟨ho1, ho2⟩
    refine ⟨hmsgs1, ?_⟩
    have hr1a : (r.add v1).1 = r.store_immediate v1.designator (.overloaded [v1]) := by
      rw [hr1, ho1]
      simp
    rw [hr1a]
    have hfind2 : (r.store_immediate v1.designator (.overloaded [v1])).find_immediate
        v2.designator = some (.overloaded [v1]) := by
      rw [← h_des]
      exact find_immediate_store r v1.designator _
    rw [add_overload_join _ _ _ hfind2 (fun hd => by rw [hpkg2]; exact h_def2 hd) ho2]
  · intro hno
    refine ⟨hmsgs1, ?_⟩
    rw [Bool.and_eq_false_iff] at hno
    by_cases ho1 : v1.may_overload = true
    · have ho2 : v2.may_overload = false := by
        cases hno with
        | inl h => exact absurd ho1 (by simp [h])
        | inr h => exact h
      have hr1a : (r.add v1).1 = r.store_immediate v1.designator (.overloaded [v1]) := by
        rw [hr1, ho1]
        simp
      rw [hr1a]
      have hfind2 : (r.store_immediate v1.designator (.overloaded [v1])).find_immediate
          v2.designator = some (.overloaded [v1]) := by
        rw [← h_des]
        exact find_immediate_store r v1.designator _
      rw [add_overload_dup _ _ _ hfind2 (fun hd => by rw [hpkg2]; exact h_def2 hd) ho2]
      simp [RegionEntry.first_decl, duplicate_error, hp1, hp2]
    · have ho1' : v1.may_overload = false := by simpa using ho1
      have hr1a : (r.add v1).1 = r.store_immediate v1.designator (.single v1) := by
        rw [hr1, ho1']
        simp
      rw [hr1a]
      have hfind2 : (r.store_immediate v1.designator (.single v1)).find_immediate
          v2.designator = some (.single v1) := by
        rw [← h_des]
        exact find_immediate_store r v1.designator _
      rw [add_single_dup _ _ _ hfind2 (fun hd => by rw [hpkg2]; exact h_def2 hd) hc1 hc2]
      simp [duplicate_error, hp1, hp2]

/-- C2 witness: two overloadable subprogram-like declarations named `f`
coexist without a message; two plain constants named `x` produce exactly
the duplicate error at position 94 related to position 93. -/
theorem add_homograph_rule_witness :
    ((DeclarativeRegion.new none).add
        ⟨.identifier "f", .decl_other, some 91, true⟩).2 = [] ∧
    (((DeclarativeRegion.new none).add ⟨.identifier "f", .decl_other, some 91, true⟩).1.add
        ⟨.identifier "f", .decl_other, some 92, true⟩).2 = [] ∧
    ((DeclarativeRegion.new none).add
        ⟨.identifier "x", .decl_object true true, some 93, false⟩).2 = [] ∧
    (((DeclarativeRegion.new none).add
        ⟨.identifier "x", .decl_object true true, some 93, false⟩).1.add
        ⟨.identifier "x", .decl_object true true, some 94, false⟩).2 =
      [(Message.error 94 ("Duplicate declaration of '"
          ++ (Designator.identifier "x").describe ++ "'")).add_related 93
        "Previously defined here"] := by
  have h1 := add_homograph_rule (DeclarativeRegion.new none)
    ⟨.identifier "f", .decl_other, some 91, true⟩ ⟨.identifier "f", .decl_other, some 92, true⟩
    91 92 rfl rfl rfl rfl (by decide) (by decide) (by decide) (by decide)
  have h2 := add_homograph_rule (DeclarativeRegion.new none)
    ⟨.identifier "x", .decl_object true true, some 93, false⟩
    ⟨.identifier "x", .decl_object true true, some 94, false⟩
    93 94 rfl rfl rfl rfl (by decide) (by decide) (by decide) (by decide)
  obtain ⟨ha, hb⟩ := h1.1 ⟨rfl, rfl⟩
  obtain ⟨hc, hd⟩ := h2.2 rfl
  exact ⟨ha, hb, hc, hd⟩

/-! ## C9 — the `Analyzer::new` assertion -/

theorem plain_region_store (r : DeclarativeRegion) (v : VisibleDeclaration)
    (hreg : plain_region r) (hv : v.decl.is_deferred_constant = false) :
    plain_region (r.store_immediate v.designator (.single v)) := by
  intro p hp
  cases r with
  | mk parent immediate pv flag =>
      simp [DeclarativeRegion.store_immediate, DeclarativeRegion.immediate] at hp
      rcases assoc_store_mem _ _ _ _ hp with h | h
      · exact hreg p h
      · exact ⟨v, by simp [h], hv⟩

/-- Adding a list of plain declarations to a plain region: the result is
plain, and no message is produced exactly when the designators are
pairwise distinct and all fresh. -/
theorem add_list_plain : ∀ (decls : List VisibleDeclaration) (r : DeclarativeRegion),
    (∀ v ∈ decls, plain_decl v) → plain_region r →
    plain_region (r.add_list decls).1 ∧
    ((r.add_list decls).2 = [] ↔
      ((decls.map (fun v => v.designator)).Nodup ∧
        ∀ v ∈ decls, r.find_immediate v.designator = none))
  | [], r, _, hreg => by
      refine ⟨hreg, ?_⟩
      simp [DeclarativeRegion.add_list]
  | v :: rest, r, hplain, hreg => by
      have hpv := hplain v (by simp)
      obtain ⟨hov, hdv, hbv, htv⟩ := hpv
      by_cases hs : r.find_immediate v.designator = none
      · have hadd := add_fresh r v hs hbv (fun hd => by rw [hd] at hdv; cases hdv)
        have hr1 : (r.add v).1 = r.store_immediate v.designator (.single v) := by
          rw [hadd, hov]
          simp
        have hm1 : (r.add v).2 = [] := by rw [hadd]
        have hreg1 : plain_region (r.add v).1 := by
          rw [hr1]
          exact plain_region_store r v hreg hdv
        obtain ⟨hplain', hiff⟩ := add_list_plain rest (r.add v).1
          (fun u hu => hplain u (by simp [hu])) hreg1
        have hfind : ∀ u : VisibleDeclaration, u ∈ rest →
            (((r.add v).1).find_immediate u.designator = none ↔
              (u.designator ≠ v.designator ∧ r.find_immediate u.designator = none)) := by
          intro u hu
          rw [hr1]
          by_cases hdes : u.designator = v.designator
          · rw [hdes, find_immediate_store]
            simp [hdes]
          · rw [find_immediate_store_other _ _ _ _ hdes]
            simp [hdes]
        rw [add_list_cons]
        refine ⟨hplain', ?_⟩
        simp only [hm1, List.nil_append]
        rw [hiff]
        simp only [List.map_cons, List.nodup_cons, List.mem_map]
        constructor
        · rintro ⟨hnd, hall⟩
          refine ⟨⟨?_, hnd⟩, ?_⟩
          · rintro ⟨u, hu, hud⟩
            exact ((hfind u hu).mp (hall u hu)).1 hud
          · intro u hu
            rcases List.mem_cons.mp hu with h | h
            · rw [h]
              exact hs
            · exact ((hfind u h).mp (hall u h)).2
        · rintro ⟨⟨hnmem, hnd⟩, hall⟩
          refine ⟨hnd, ?_⟩
          intro u hu
          refine (hfind u hu).mpr ⟨?_, hall u (List.mem_cons_of_mem _ hu)⟩
          intro hud
          exact hnmem ⟨u, hu, hud⟩
      · obtain ⟨ent, hent⟩ : ∃ e, r.find_immediate v.designator = some e := by
          cases h : r.find_immediate v.designator with
          | none => exact absurd h hs
          | some e => exact ⟨e, rfl⟩
        obtain ⟨u, hu_ent, hu_def⟩ := hreg (v.designator, ent)
          (assoc_find_mem _ _ _ ((find_immediate_as_assoc r v.designator) ▸ hent))
        have hu_ent2 : ent = RegionEntry.single u := hu_ent
        rw [hu_ent2] at hent
        have hadd := add_single_dup r v u hent
          (fun hd => by rw [hd] at hdv; cases hdv)
          (by simp [hu_def]) (by simp [hbv])
        have hr1 : (r.add v).1 = r := by rw [hadd]
        have hm1 : (r.add v).2 = [duplicate_error v u.decl_pos] := by rw [hadd]
        obtain ⟨hplain', _⟩ := add_list_plain rest (r.add v).1
          (fun w hw => hplain w (by simp [hw])) (by rw [hr1]; exact hreg)
        rw [add_list_cons]
        refine ⟨hplain', ?_⟩
        simp only [hm1]
        constructor
        · intro h
          cases h
        · rintro ⟨_, hall⟩
          exact absurd (hall v (by simp)) hs

theorem empty_region_plain : plain_region (DeclarativeRegion.new none) := by
  intro p hp
  simp [DeclarativeRegion.new, DeclarativeRegion.immediate] at hp

theorem empty_region_find (d : Designator) :
    (DeclarativeRegion.new none).find_immediate d = none := rfl

theorem primary_plain (library : Library) :
    ∀ v ∈ library.primary_unit_declarations, plain_decl v := by
  intro v hv
  simp only [Library.primary_unit_declarations, List.mem_append, List.mem_map,
    List.mem_flatMap, List.mem_cons] at hv
  rcases hv with (((⟨p, _, rfl⟩ | ⟨c, _, rfl⟩) | ⟨e, _, rfl | ⟨cfg, _, rfl⟩⟩) | ⟨i, _, rfl⟩) <;>
    exact ⟨rfl, rfl, by simp, by simp⟩

theorem build_fold (libs : List Library)
    (acc : List (Symbol × DeclarativeRegion) × List Message) :
    (libs.foldl (fun (acc : List (Symbol × DeclarativeRegion) × List Message) library =>
        (acc.1 ++ [(library.name,
            ((DeclarativeRegion.new none).add_list library.primary_unit_declarations).1)],
         acc.2 ++ ((DeclarativeRegion.new none).add_list library.primary_unit_declarations).2))
      acc).2
      = acc.2 ++ libs.flatMap (fun library =>
          ((DeclarativeRegion.new none).add_list library.primary_unit_declarations).2) := by
  induction libs generalizing acc with
  | nil => simp
  | cons l rest ih => simp [ih]

theorem build_messages (root : DesignRoot) :
    (Analyzer.build root).2 = root.libraries.flatMap (fun library =>
      ((DeclarativeRegion.new none).add_list library.primary_unit_declarations).2) := by
  have h : (Analyzer.build root).2
      = (root.libraries.foldl (fun (acc : List (Symbol × DeclarativeRegion) × List Message)
          library =>
          (acc.1 ++ [(library.name,
              ((DeclarativeRegion.new none).add_list library.primary_unit_declarations).1)],
           acc.2 ++ ((DeclarativeRegion.new none).add_list
              library.primary_unit_declarations).2))
        ([], [])).2 := rfl
  rw [h, build_fold]
  simp

theorem library_messages_iff (lib : Library) :
    ((DeclarativeRegion.new none).add_list lib.primary_unit_declarations).2 = [] ↔
      ((lib.primary_unit_declarations.map (fun v => v.designator)).Nodup) := by
  rw [(add_list_plain lib.primary_unit_declarations (DeclarativeRegion.new none)
    (primary_plain lib) empty_region_plain).2]
  simp [empty_region_find]

/-- C9: `Analyzer::new` asserts that building the per-library flat regions
produced no messages.  When every library's primary design units
(packages, contexts, entities with their configurations, package
instances) have pairwise distinct designators the assertion never fires
and construction succeeds; when two primary units of one library share a
designator the assertion fails — a panic, not a reported diagnostic. -/
theorem analyzer_new_assertion (root : DesignRoot) :
    ((∀ lib ∈ root.libraries,
        ((lib.primary_unit_declarations.map (fun v => v.designator)).Nodup)) →
      Analyzer.new root = .ok (Analyzer.build root).1) ∧
    ((∃ lib ∈ root.libraries,
        ¬ ((lib.primary_unit_declarations.map (fun v => v.designator)).Nodup)) →
      Analyzer.new root = .crashed) := by
  constructor
  · intro hall
    have hempty : (Analyzer.build root).2 = [] := by
      rw [build_messages, List.bind_eq_nil]
      intro lib hl
      exact (library_messages_iff lib).mpr (hall lib hl)
    unfold Analyzer.new
    simp [hempty]
  · rintro ⟨lib, hl, hnd⟩
    have hne : (Analyzer.build root).2 ≠ [] := by
      rw [build_messages]
      intro hcontra
      rw [List.bind_eq_nil] at hcontra
      exact hnd ((library_messages_iff lib).mp (hcontra lib hl))
    unfold Analyzer.new
    simp [List.isEmpty_iff, hne]

/-- C9 witness: construction succeeds on the well-named circular design
and panics on a library declaring two packages named `p`. -/
theorem analyzer_new_assertion_witness :
    Analyzer.new c1_root = .ok (Analyzer.build c1_root).1 ∧
    Analyzer.new c9_dup_root = .crashed := by
  refine ⟨(analyzer_new_assertion c1_root).1 (by decide), ?_⟩
  exact (analyzer_new_assertion c9_dup_root).2 ⟨c9_dup_lib, by simp [c9_dup_root], by decide⟩

/-! ## C7 — std first, skipped afterwards -/

theorem analyze_libraries_filter (fuel : Nat) (a : Analyzer) :
    ∀ (libs : List Library) (ctx : AnalysisContext),
    analyze_libraries fuel a libs ctx
      = analyze_libraries_plain fuel a (libs.filter (fun l => l.name ≠ a.std_sym)) ctx := by
  intro libs
  induction libs with
  | nil => intro ctx; rfl
  | cons l rest ih =>
      intro ctx
      by_cases h : l.name = a.std_sym
      · simp [analyze_libraries, List.filter_cons, h, ih]
      · simp [analyze_libraries, analyze_libraries_plain, List.filter_cons, h, ih]

/-- C7: `Analyzer::analyze` equals its specification shape: the standard
library's packages are analyzed first, unconditionally, before any design
unit of any other library, and the general library loop runs exactly over
the libraries whose name differs from `std` — the standard library is
never visited by `analyze_library`. -/
theorem analyze_eq_spec (fuel : Nat) (a : Analyzer) (ctx : AnalysisContext) :
    analyze fuel a ctx = analyze_spec fuel a ctx := by
  unfold analyze analyze_spec
  cases h : a.root.get_library a.std_sym with
  | none => simp [analyze_libraries_filter]
  | some lib => simp [analyze_libraries_filter]

/-! ## State preservation: the lock never leaks and the cache is
write-once -/

theorem state_pres_refl (c : AnalysisContext) : state_pres c c :=
  ⟨rfl, fun _ _ h => h⟩

theorem state_pres_trans {a b c : AnalysisContext}
    (h1 : state_pres a b) (h2 : state_pres b c) : state_pres a c :=
  ⟨h2.1.trans h1.1, fun k v h => h2.2 k v (h1.2 k v h)⟩

theorem set_region_pres (ctx : AnalysisContext) (ln pn : Symbol)
    (v : Option DeclarativeRegion) : state_pres ctx (ctx.set_region ln pn v) := by
  unfold AnalysisContext.set_region
  cases hf : assoc_find ctx.primary_unit_data (ln, pn) with
  | some w => exact state_pres_refl ctx
  | none =>
      refine ⟨rfl, ?_⟩
      intro k u h
      have hk : (ln, pn) ≠ k := by
        intro he
        rw [he, h] at hf
        cases hf
      simp [assoc_find, hk, h]

theorem set_region_locked (ctx : AnalysisContext) (ln pn : Symbol)
    (v : Option DeclarativeRegion) : (ctx.set_region ln pn v).locked = ctx.locked := by
  unfold AnalysisContext.set_region
  cases assoc_find ctx.primary_unit_data (ln, pn) <;> rfl

theorem drop_lock_pud (ctx : AnalysisContext) (ln pn : Symbol) :
    (ctx.drop_lock ln pn).primary_unit_data = ctx.primary_unit_data := rfl

theorem remove_key_cons_self (l : List (Symbol × Symbol)) (k : Symbol × Symbol) :
    remove_key (k :: l) k = l := by
  simp [remove_key]

theorem lock_some (ctx : AnalysisContext) (ln pn : Symbol) (ctx1 : AnalysisContext)
    (h : ctx.lock ln pn = some ctx1) :
    ctx1.locked = (ln, pn) :: ctx.locked ∧
    ctx1.primary_unit_data = ctx.primary_unit_data := by
  unfold AnalysisContext.lock at h
  by_cases hk : has_key ctx.locked (ln, pn) <;> simp [hk] at h
  rw [← h]
  exact ⟨rfl, rfl⟩

theorem cache_preserved_of_pud_eq {c1 c2 : AnalysisContext}
    (h : c2.primary_unit_data = c1.primary_unit_data) : cache_preserved c1 c2 :=
  fun k v hf => by rw [h]; exact hf

/-- Every successful analysis step restores the locked set and preserves
existing cache entries: the lock taken by `analyze_package_declaration_unit`
is dropped on the way out, and `set_region` never overwrites. -/
theorem run_task_pres (a : Analyzer) : ∀ (fuel : Nat) (task : Task) (ctx : AnalysisContext)
    (r : TaskResult) (ctx' : AnalysisContext),
    run_task a fuel task ctx = .ok (r, ctx') → state_pres ctx ctx' := by
  intro fuel
  induction fuel with
  | zero =>
      intro task ctx r ctx' h
      cases h
  | succ fuel ih =>
      intro task ctx r ctx' h
      cases task <;> simp only [run_task] at h
      case package_declaration_unit root_region library package =>
        split at h
        · cases h
          exact set_region_pres ctx library.name package.name none
        · next ctx1 heqlock =>
          obtain ⟨hlk, hpud⟩ := lock_some ctx library.name package.name ctx1 heqlock
          split at h
          case _ rr m1 ctxb heqcc =>
            split at h
            case _ reg m2 ctx2 heqpd =>
              have s1 := ih _ _ _ _ heqcc
              have s2 := ih _ _ _ _ heqpd
              split at h
              all_goals cases h
              all_goals constructor
              · rw [AnalysisContext.drop_lock]
                simp only [set_region_locked, s2.1, s1.1, hlk]
                exact remove_key_cons_self _ _
              · exact fun k v hf =>
                  (cache_preserved_of_pud_eq (drop_lock_pud _ _ _)) k v
                    ((set_region_pres ctx2 library.name package.name _).2 k v
                      (s2.2 k v (s1.2 k v ((cache_preserved_of_pud_eq hpud) k v hf))))
              · rw [AnalysisContext.drop_lock]
                simp only [set_region_locked, s2.1, s1.1, hlk]
                exact remove_key_cons_self _ _
              · exact fun k v hf =>
                  (cache_preserved_of_pud_eq (drop_lock_pud _ _ _)) k v
                    ((set_region_pres ctx2 library.name package.name _).2 k v
                      (s2.2 k v (s1.2 k v ((cache_preserved_of_pud_eq hpud) k v hf))))
            all_goals cases h
          all_goals cases h
      all_goals (repeat' split at h)
      all_goals (try cases h)
      all_goals (first
        | exact state_pres_refl _
        | (repeat (first
            | exact ih _ _ _ _ (by assumption)
            | refine state_pres_trans (ih _ _ _ _ (by assumption)) ?_)))

/-! ## C5 — the lock never leaks -/

/-- C5: on every exit of `analyze_package_declaration_unit` — the
successful path (where the acquired lock's guard removes the key at scope
exit, after success or after error diagnostics) as well as the
lock-acquisition-failure path (where the enclosing frame's key is left in
place) — the locked set of the AnalysisContext equals the locked set at
entry. -/
theorem analyze_pdu_restores_locked (fuel : Nat) (a : Analyzer)
    (root_region : DeclarativeRegion) (library : Library) (package : PackageDesignUnit)
    (ctx : AnalysisContext) (result : Option DeclarativeRegion × List Message)
    (ctx' : AnalysisContext)
    (h : analyze_package_declaration_unit fuel a root_region library package ctx
        = .ok (result, ctx')) :
    ctx'.locked = ctx.locked := by
  unfold analyze_package_declaration_unit at h
  split at h
  case _ rr msgs ctx2 heq =>
    cases h
    exact (run_task_pres a fuel _ ctx _ _ heq).1
  all_goals cases h

/-- C5 witness: a concrete successful unit analysis of package p starting
from the empty context returns with the empty locked set. -/
theorem analyze_pdu_restores_locked_witness :
    c5_ctx1.locked = AnalysisContext.new.locked :=
  analyze_pdu_restores_locked 30 c4_analyzer (DeclarativeRegion.new none) c4_lib c4_pkg_p
    AnalysisContext.new c5_out c5_ctx1 (by rfl)

/-! ## C4 — the None sentinel -/

/-- C4 counterexample: with package k's cache entry holding the `None`
sentinel and package k's context clause using package p, a
`get_package_region` call for k does return `None` — but it is not a pure
cached read: it re-runs k's analysis, observable because the call
populates the cache with a fresh entry for package p, which a
"return None without re-running the analysis" semantics could never do. -/
theorem sentinel_get_recomputes_analysis :
    c4_result.isSome = false ∧
    (assoc_find c4_ctx0.primary_unit_data ("lib4", "p")).isSome = false ∧
    (assoc_find c4_ctx1.primary_unit_data ("lib4", "p")).isSome = true := by
  refine ⟨by rfl, by rfl, by rfl⟩

theorem pdu_sentinel (a : Analyzer) : ∀ (fuel : Nat) (root_region : DeclarativeRegion)
    (library : Library) (package : PackageDesignUnit) (ctx : AnalysisContext)
    (r : Option DeclarativeRegion) (msgs : List Message) (ctx' : AnalysisContext),
    assoc_find ctx.primary_unit_data (library.name, package.name) = some none →
    run_task a fuel (.package_declaration_unit root_region library package) ctx
      = .ok (.opt_region_msgs r msgs, ctx') →
    r = none := by
  intro fuel root_region library package ctx r msgs ctx' hsent h
  cases fuel with
  | zero => cases h
  | succ fuel =>
      simp only [run_task] at h
      split at h
      · cases h
        rfl
      · next ctx1 heqlock =>
        obtain ⟨_, hpud⟩ := lock_some ctx library.name package.name ctx1 heqlock
        have hsent1 : assoc_find ctx1.primary_unit_data (library.name, package.name)
            = some none := by rw [hpud]; exact hsent
        split at h
        case _ rr m1 ctxb heqcc =>
          have hsentb := (run_task_pres a fuel _ _ _ _ heqcc).2 _ _ hsent1
          split at h
          case _ reg m2 ctx2 heqpd =>
            have hsent2 := (run_task_pres a fuel _ _ _ _ heqpd).2 _ _ hsentb
            split at h
            all_goals cases h
            all_goals
              rw [set_region_occupied ctx2 library.name package.name _ none hsent2]
              unfold AnalysisContext.get_region
              rw [hsent2]
          all_goals cases h
        all_goals cases h

theorem package_region_sentinel (a : Analyzer) (fuel : Nat) (library : Library)
    (package : PackageDesignUnit) (ctx : AnalysisContext) (tr : TaskResult)
    (ctx' : AnalysisContext)
    (hsent : assoc_find ctx.primary_unit_data (library.name, package.name) = some none)
    (h : run_task a fuel (.package_region library package) ctx = .ok (tr, ctx')) :
    tr = .opt_region none := by
  cases fuel with
  | zero => cases h
  | succ fuel =>
      simp only [run_task] at h
      have hget : ctx.get_region library.name package.name = none := by
        unfold AnalysisContext.get_region
        rw [hsent]
      split at h
      case _ region heqget =>
        rw [hget] at heqget
        cases heqget
      case _ heqget =>
      split at h
      case _ root_region ctx1 heqnrr =>
        have hsent1 := (run_task_pres a fuel _ _ _ _ heqnrr).2 _ _ hsent
        split at h
        case _ result ignored ctx2 heqpdu =>
          have hr := pdu_sentinel a fuel root_region library package ctx1 result ignored ctx2
            hsent1 heqpdu
          cases h
          rw [hr]
        all_goals cases h
      all_goals cases h

/-- C4 (amended): once the cache maps a (library, primary-unit) key to
the `None` sentinel, every later successful `get_package_region` call for
that key returns `None` — the sentinel can never be overwritten
(`set_region` is first-write-wins and every step preserves existing cache
entries), and the final `get_region` read maps it to `None`.  The claim's
"without re-running that package's analysis" does not hold: the sentinel
is indistinguishable from a cache miss in `get_region`, so the call
re-analyzes the unit (with its diagnostics discarded) before returning
`None`. -/
theorem get_package_region_sentinel_none (fuel : Nat) (a : Analyzer) (library : Library)
    (package : PackageDesignUnit) (ctx : AnalysisContext)
    (result : Option DeclarativeRegion) (ctx' : AnalysisContext)
    (hsent : assoc_find ctx.primary_unit_data (library.name, package.name) = some none)
    (h : get_package_region fuel a library package ctx = .ok (result, ctx')) :
    result = none := by
  unfold get_package_region at h
  split at h
  case _ rr ctx2 heq =>
    cases h
    have hres := package_region_sentinel a fuel library package ctx _ _ hsent heq
    injection hres
  all_goals cases h

/-- C4 witness: the sentinel scenario of `c4_ctx0` run concretely. -/
theorem get_package_region_sentinel_none_witness :
    c4w_result = none :=
  get_package_region_sentinel_none 30 c4_analyzer c4_lib c4_pkg_k c4_ctx0
    c4w_result c4w_ctx1 (by rfl) (by rfl)

/-! ## C10 — the root region binds `work`, not the library's own name -/

/-- C10: `new_root_region` binds the current working library under the
fixed symbol `work` regardless of the library's actual name, and does not
bind the actual name: with no std library the root region is exactly the
`work` binding, looking up `work` yields the Library binding and looking
up any other symbol fails; and concretely, with a std library present the
root region additionally binds `std` while the working library's actual
name `mylib` still resolves to nothing. -/
theorem new_root_region_binds_work (fuel : Nat) (a : Analyzer) (work : Library)
    (ctx : AnalysisContext) (n : Symbol)
    (h_nostd : a.root.get_library a.std_sym = none) (hn : n ≠ a.work_sym) :
    (new_root_region (fuel + 1) a work ctx
      = .ok ((DeclarativeRegion.new none).make_library_visible a.work_sym work.name, ctx)) ∧
    (((DeclarativeRegion.new none).make_library_visible a.work_sym work.name).lookup
        (.identifier a.work_sym)
      = some { designator := .identifier a.work_sym, decl := .library work.name,
               decl_pos := none, may_overload := false }) ∧
    (((DeclarativeRegion.new none).make_library_visible a.work_sym work.name).lookup
        (.identifier n) = none) ∧
    (c10_region.lookup (.identifier "work")
      = some { designator := .identifier "work", decl := .library "mylib",
               decl_pos := none, may_overload := false }) ∧
    (c10_region.lookup (.identifier "std")
      = some { designator := .identifier "std", decl := .library "std",
               decl_pos := none, may_overload := false }) ∧
    (c10_region.lookup (.identifier "mylib") = none) := by
  refine ⟨?_, ?_, ?_, by decide, by decide, by decide⟩
  · unfold new_root_region
    simp [run_task, h_nostd]
  · simp [DeclarativeRegion.new, DeclarativeRegion.make_library_visible,
      DeclarativeRegion.store_immediate, assoc_store, DeclarativeRegion.lookup, assoc_find,
      DeclarativeRegion.parent, DeclarativeRegion.immediate,
      DeclarativeRegion.potentially_visible, DeclarativeRegion.in_package_decl,
      RegionEntry.first_decl]
  · simp [DeclarativeRegion.new, DeclarativeRegion.make_library_visible,
      DeclarativeRegion.store_immediate, assoc_store, DeclarativeRegion.lookup, assoc_find,
      DeclarativeRegion.parent, DeclarativeRegion.immediate,
      DeclarativeRegion.potentially_visible, DeclarativeRegion.in_package_decl,
      lookup_in_visible, Ne.symm hn]

/-- C10 witness: instantiated at the std-less circular design, whose
working library is named `libname`. -/
theorem new_root_region_binds_work_witness :
    (new_root_region 1 c1_analyzer c1_lib AnalysisContext.new
      = .ok ((DeclarativeRegion.new none).make_library_visible c1_analyzer.work_sym c1_lib.name,
          AnalysisContext.new)) ∧
    (((DeclarativeRegion.new none).make_library_visible c1_analyzer.work_sym
        c1_lib.name).lookup (.identifier c1_analyzer.work_sym)
      = some { designator := .identifier c1_analyzer.work_sym, decl := .library c1_lib.name,
               decl_pos := none, may_overload := false }) ∧
    (((DeclarativeRegion.new none).make_library_visible c1_analyzer.work_sym
        c1_lib.name).lookup (.identifier "libname") = none) ∧
    (c10_region.lookup (.identifier "work")
      = some { designator := .identifier "work", decl := .library "mylib",
               decl_pos := none, may_overload := false }) ∧
    (c10_region.lookup (.identifier "std")
      = some { designator := .identifier "std", decl := .library "std",
               decl_pos := none, may_overload := false }) ∧
    (c10_region.lookup (.identifier "mylib") = none) :=
  new_root_region_binds_work 0 c1_analyzer c1_lib AnalysisContext.new "libname"
    (by rfl) (by decide)

/-! ## C1 — the circular-dependency scenario -/

/-- C1: for the project in which pkg1's context clause contains
`use work.pkg2.const` and pkg2's contains `use work.pkg1.const` (both
packages otherwise well-formed), the whole-project analysis emits exactly
one error, "Found circular dependencies when using package 'pkg2'",
positioned at the prefix `work.pkg2` (position 13) of pkg1's use clause —
and no other diagnostic of any kind. -/
theorem circular_use_emits_exactly_one_error :
    analyze_messages 50 c1_analyzer AnalysisContext.new
      = .ok [Message.error 13 "Found circular dependencies when using package 'pkg2'"] := by
  rfl

/-! ## C3 — non-termination on a self-referential context -/

theorem c3_base0 (ctx : AnalysisContext) :
    run_task c3_analyzer 0 (.context_clause c3_R0 c3_context.items) ctx = .outOfFuel := rfl

theorem c3_base1 (ctx : AnalysisContext) :
    run_task c3_analyzer 1 (.context_clause c3_R0 c3_context.items) ctx = .outOfFuel := rfl

theorem c3_base2 (ctx : AnalysisContext) :
    run_task c3_analyzer 2 (.context_clause c3_R0 c3_context.items) ctx = .outOfFuel := rfl

theorem c3_base3 (ctx : AnalysisContext) :
    run_task c3_analyzer 3 (.context_clause c3_R0 c3_context.items) ctx = .outOfFuel := rfl

/-- Analyzing the self-referential context's items for four more fuel
levels comes back, definitionally, to analyzing the same items: the
resolution of `work.c1` succeeds and the referenced context's items are
inlined with no guard against reentry. -/
theorem c3_unfold (f : Nat) (ctx : AnalysisContext) :
    run_task c3_analyzer (f + 4) (.context_clause c3_R0 c3_context.items) ctx
      = c3_wrap (run_task c3_analyzer (f + 2) (.context_clause c3_R0 c3_context.items) ctx) :=
  rfl

theorem c3_aux : ∀ (fuel : Nat) (ctx : AnalysisContext),
    run_task c3_analyzer fuel (.context_clause c3_R0 c3_context.items) ctx = .outOfFuel
  | 0, ctx => c3_base0 ctx
  | 1, ctx => c3_base1 ctx
  | 2, ctx => c3_base2 ctx
  | 3, ctx => c3_base3 ctx
  | (f + 4), ctx => by
      rw [c3_unfold, c3_aux (f + 2) ctx]
      rfl

/-- C3: `Analyzer::analyze` does not terminate on every finite design.
For the design whose single context declaration references itself
(`context c1 is context work.c1; end context;`) the analysis exhausts
every fuel bound: the context-reference inlining of
`analyze_context_clause` re-enters the referenced context's items with no
reentrancy guard (the lock set only protects `get_package_region`), so
the real program recurses without bound on this input while the claim
says it terminates. -/
theorem self_referential_context_analysis_diverges :
    ∀ fuel, analyze fuel c3_analyzer AnalysisContext.new = .outOfFuel := by
  intro fuel
  cases fuel with
  | zero => rfl
  | succ f =>
    have h := c3_aux (f + 1) AnalysisContext.new
    simp only [analyze, analyze_libraries, analyze_library, analyze_library_packages,
      analyze_library_instances, analyze_library_contexts, analyze_library_entities,
      run_task, c3_analyzer, Analyzer.build, c3_root, c3_context, c3_R0, c3_ref_name,
      DesignRoot.get_library, Library.primary_unit_declarations,
      DeclarativeRegion.new, DeclarativeRegion.make_library_visible,
      DeclarativeRegion.store_immediate, DeclarativeRegion.add_list, assoc_store,
      List.foldl, List.find?, List.map, List.flatMap, List.append] at h ⊢
    simp_all

end Vhdl
